import Mathlib

/-!
Shallow embedding of the NES emulator core (src/src/cpu.rs, src/src/bus.rs,
src/src/opcodes.rs) in Lean 4.

Machine integers are embedded as `Nat` with explicit `% 256` / `% 65536`
where the Rust code performs 8-bit / 16-bit (wrapping) arithmetic.
Rust panics are embedded as `Option.none`.  The CPU is written, as in the
source, against the total `Mem` interface: its memory is an abstract
function `Nat → Nat`, read through `mem_read` (which truncates the address
to 16 bits and the value to 8 bits, encoding the `u16`/`u8` types).
-/

namespace Nes

/-- CPU status flags, from the `bitflags!` block in src/src/cpu.rs.
The status byte is a `Nat < 256`; each constant is one bit. -/
def CpuFlags.CARRY : Nat := 0b00000001

def CpuFlags.ZERO : Nat := 0b00000010

def CpuFlags.INTERRUPT_DISABLE : Nat := 0b00000100

def CpuFlags.DECIMAL_MODE : Nat := 0b00001000

def CpuFlags.BREAK : Nat := 0b00010000

def CpuFlags.BREAK2 : Nat := 0b00100000

def CpuFlags.OVERFLOW : Nat := 0b01000000

def CpuFlags.NEGATIVE : Nat := 0b10000000

/-- bitflags `contains`: all bits of `f` are present in `s`. -/
def CpuFlags.contains (s f : Nat) : Bool := s &&& f == f

/-- bitflags `insert`: set the bits of `f`. -/
def CpuFlags.insert (s f : Nat) : Nat := s ||| f

/-- bitflags `remove`: clear the bits of `f` (`!f` on a `u8` is `255 ^^^ f`). -/
def CpuFlags.remove (s f : Nat) : Nat := s &&& (255 ^^^ f)

/-- bitflags `set(f, b)`: insert when `b`, remove otherwise. -/
def CpuFlags.setb (s f : Nat) (b : Bool) : Nat :=
  if b then CpuFlags.insert s f else CpuFlags.remove s f

/-- Addressing modes, from `enum AddressingMode` in src/src/cpu.rs. -/
inductive AddressingMode where
  | Immediate
  | ZeroPage
  | ZeroPage_X
  | ZeroPage_Y
  | Absolute
  | Absolute_X
  | Absolute_Y
  | Indirect_X
  | Indirect_Y
  | NoneAddressing
deriving DecidableEq

/-- CPU state, from `struct CPU` in src/src/cpu.rs.  The bus behind the
`Mem` trait is abstracted as the total byte function `mem`. -/
structure CPU where
  register_a : Nat
  register_x : Nat
  register_y : Nat
  status : Nat
  program_counter : Nat
  stack_pointer : Nat
  mem : Nat → Nat

/-- `Mem::mem_read` as seen by the CPU: a `u16` address yields a `u8`. -/
def CPU.mem_read (s : CPU) (a : Nat) : Nat := s.mem (a % 65536) % 256

/-- `Mem::mem_write`. -/
def CPU.mem_write (s : CPU) (a d : Nat) : CPU :=
  { s with mem := fun x => if x = a % 65536 then d % 256 else s.mem x }

/-- `Mem::mem_read_u16`: two reads composed little-endian
(`(hi << 8) | lo`), the high byte at `address + 1`. -/
def CPU.mem_read_u16 (s : CPU) (a : Nat) : Nat :=
  (s.mem_read ((a + 1) % 65536)) <<< 8 ||| s.mem_read a

/-- `STACK` base address constant. -/
def STACK : Nat := 0x0100

/-- `STACK_RESET` constant. -/
def STACK_RESET : Nat := 0xFD

/-- `CPU::stack_pop`: increment the stack pointer (wrapping mod 256), then
read at `STACK + stack_pointer`. -/
def CPU.stack_pop (s : CPU) : Nat × CPU :=
  let sp := (s.stack_pointer + 1) % 256
  let s1 := { s with stack_pointer := sp }
  (s1.mem_read (STACK + sp), s1)

/-- `CPU::stack_pop_u16`: little-endian, low byte popped first. -/
def CPU.stack_pop_u16 (s : CPU) : Nat × CPU :=
  let (lo, s1) := s.stack_pop
  let (hi, s2) := s1.stack_pop
  (hi <<< 8 ||| lo, s2)

/-- `CPU::stack_push`: write at `STACK + stack_pointer`, then decrement the
stack pointer (wrapping mod 256: `sp.wrapping_sub(1) = (sp + 255) % 256`). -/
def CPU.stack_push (s : CPU) (d : Nat) : CPU :=
  let s1 := s.mem_write (STACK + s.stack_pointer) d
  { s1 with stack_pointer := (s1.stack_pointer + 255) % 256 }

/-- `CPU::stack_push_u16`: high byte pushed first, then low byte. -/
def CPU.stack_push_u16 (s : CPU) (d : Nat) : CPU :=
  let hi := (d >>> 8) % 256
  let lo := d &&& 0x00FF
  (s.stack_push hi).stack_push lo

/-- `CPU::update_zero_and_negative_flags`. -/
def CPU.update_zero_and_negative_flags (s : CPU) (result : Nat) : CPU :=
  let st1 :=
    if result = 0 then CpuFlags.insert s.status CpuFlags.ZERO
    else CpuFlags.remove s.status CpuFlags.ZERO
  let st2 :=
    if result &&& 0b10000000 ≠ 0 then CpuFlags.insert st1 CpuFlags.NEGATIVE
    else CpuFlags.remove st1 CpuFlags.NEGATIVE
  { s with status := st2 }

/-- `CPU::set_register_a`. -/
def CPU.set_register_a (s : CPU) (value : Nat) : CPU :=
  let s1 := { s with register_a := value }
  s1.update_zero_and_negative_flags s1.register_a

/-- `CPU::set_carry_flag`. -/
def CPU.set_carry_flag (s : CPU) : CPU :=
  { s with status := CpuFlags.insert s.status CpuFlags.CARRY }

/-- `CPU::clear_carry_flag`. -/
def CPU.clear_carry_flag (s : CPU) : CPU :=
  { s with status := CpuFlags.remove s.status CpuFlags.CARRY }

/-- `CPU::get_absolute_address`.  The `NoneAddressing` arm panics in the
source, hence `none` here.  All index arithmetic wraps mod 256 / 65536 as
the source's `wrapping_add` does. -/
def CPU.get_absolute_address (s : CPU) (mode : AddressingMode) (address : Nat) :
    Option Nat :=
  match mode with
  | .Immediate => some address
  | .ZeroPage => some (s.mem_read address)
  | .Absolute => some (s.mem_read_u16 address)
  | .ZeroPage_X => some ((s.mem_read address + s.register_x) % 256)
  | .ZeroPage_Y => some ((s.mem_read address + s.register_y) % 256)
  | .Absolute_X => some ((s.mem_read_u16 address + s.register_x) % 65536)
  | .Absolute_Y => some ((s.mem_read_u16 address + s.register_y) % 65536)
  | .Indirect_X =>
      let base := s.mem_read address
      let ptr := (base + s.register_x) % 256
      let lo := s.mem_read ptr
      let hi := s.mem_read ((ptr + 1) % 256)
      some (hi <<< 8 ||| lo)
  | .Indirect_Y =>
      let base := s.mem_read address
      let lo := s.mem_read base
      let hi := s.mem_read ((base + 1) % 256)
      let deref_base := hi <<< 8 ||| lo
      some ((deref_base + s.register_y) % 65536)
  | .NoneAddressing => none

/-- `CPU::get_operand_address`: resolve relative to the current program
counter. -/
def CPU.get_operand_address (s : CPU) (mode : AddressingMode) : Option Nat :=
  s.get_absolute_address mode s.program_counter

/-- `CPU::add_to_register_a`: 9-bit sum, carry, signed-overflow test, then
store with zero/negative update. -/
def CPU.add_to_register_a (s : CPU) (data : Nat) : CPU :=
  let sum := s.register_a + data +
    (if CpuFlags.contains s.status CpuFlags.CARRY then 1 else 0)
  let st1 :=
    if sum > 0xff then CpuFlags.insert s.status CpuFlags.CARRY
    else CpuFlags.remove s.status CpuFlags.CARRY
  let result := sum % 256
  let st2 :=
    if (data ^^^ result) &&& (result ^^^ s.register_a) &&& 0x80 ≠ 0 then
      CpuFlags.insert st1 CpuFlags.OVERFLOW
    else CpuFlags.remove st1 CpuFlags.OVERFLOW
  ({ s with status := st2 }).set_register_a result

/-- `CPU::adc`. -/
def CPU.adc (s : CPU) (mode : AddressingMode) : Option CPU :=
  (s.get_operand_address mode).map fun addr =>
    s.add_to_register_a (s.mem_read addr)

/-- `CPU::sbc`: add the ones complement of the operand
(`((v as i8).wrapping_neg().wrapping_sub(1)) as u8 = 255 - v` for a byte). -/
def CPU.sbc (s : CPU) (mode : AddressingMode) : Option CPU :=
  (s.get_operand_address mode).map fun addr =>
    s.add_to_register_a (255 - s.mem_read addr)

/-- `CPU::and`. -/
def CPU.and (s : CPU) (mode : AddressingMode) : Option CPU :=
  (s.get_operand_address mode).map fun addr =>
    s.set_register_a (s.mem_read addr &&& s.register_a)

/-- `CPU::eor`. -/
def CPU.eor (s : CPU) (mode : AddressingMode) : Option CPU :=
  (s.get_operand_address mode).map fun addr =>
    s.set_register_a (s.mem_read addr ^^^ s.register_a)

/-- `CPU::ora`. -/
def CPU.ora (s : CPU) (mode : AddressingMode) : Option CPU :=
  (s.get_operand_address mode).map fun addr =>
    s.set_register_a (s.mem_read addr ||| s.register_a)

/-- `CPU::asl_accumulator`. -/
def CPU.asl_accumulator (s : CPU) : CPU :=
  let data := s.register_a
  let s1 := if data >>> 7 = 1 then s.set_carry_flag else s.clear_carry_flag
  s1.set_register_a ((data <<< 1) % 256)

/-- `CPU::asl` (memory operand); returns the shifted value as the source
function does. -/
def CPU.asl (s : CPU) (mode : AddressingMode) : Option (CPU × Nat) :=
  (s.get_operand_address mode).map fun addr =>
    let data := s.mem_read addr
    let s1 := if data >>> 7 = 1 then s.set_carry_flag else s.clear_carry_flag
    let data1 := (data <<< 1) % 256
    ((s1.mem_write addr data1).update_zero_and_negative_flags data1, data1)

/-- `CPU::lsr_accumulator`. -/
def CPU.lsr_accumulator (s : CPU) : CPU :=
  let data := s.register_a
  let s1 := if data &&& 1 = 1 then s.set_carry_flag else s.clear_carry_flag
  s1.set_register_a (data >>> 1)

/-- `CPU::lsr` (memory operand). -/
def CPU.lsr (s : CPU) (mode : AddressingMode) : Option (CPU × Nat) :=
  (s.get_operand_address mode).map fun addr =>
    let data := s.mem_read addr
    let s1 := if data &&& 1 = 1 then s.set_carry_flag else s.clear_carry_flag
    let data1 := data >>> 1
    ((s1.mem_write addr data1).update_zero_and_negative_flags data1, data1)

/-- `CPU::rol_accumulator`. -/
def CPU.rol_accumulator (s : CPU) : CPU :=
  let data := s.register_a
  let old_carry := CpuFlags.contains s.status CpuFlags.CARRY
  let s1 := if data >>> 7 = 1 then s.set_carry_flag else s.clear_carry_flag
  let data1 := (data <<< 1) % 256
  let data2 := if old_carry then data1 ||| 1 else data1
  s1.set_register_a data2

/-- `CPU::rol` (memory operand). -/
def CPU.rol (s : CPU) (mode : AddressingMode) : Option (CPU × Nat) :=
  (s.get_operand_address mode).map fun addr =>
    let data := s.mem_read addr
    let old_carry := CpuFlags.contains s.status CpuFlags.CARRY
    let s1 := if data >>> 7 = 1 then s.set_carry_flag else s.clear_carry_flag
    let data1 := (data <<< 1) % 256
    let data2 := if old_carry then data1 ||| 1 else data1
    ((s1.mem_write addr data2).update_zero_and_negative_flags data2, data2)

/-- `CPU::ror_accumulator`. -/
def CPU.ror_accumulator (s : CPU) : CPU :=
  let data := s.register_a
  let old_carry := CpuFlags.contains s.status CpuFlags.CARRY
  let s1 := if data &&& 1 = 1 then s.set_carry_flag else s.clear_carry_flag
  let data1 := data >>> 1
  let data2 := if old_carry then data1 ||| 0b10000000 else data1
  s1.set_register_a data2

/-- `CPU::ror` (memory operand). -/
def CPU.ror (s : CPU) (mode : AddressingMode) : Option (CPU × Nat) :=
  (s.get_operand_address mode).map fun addr =>
    let data := s.mem_read addr
    let old_carry := CpuFlags.contains s.status CpuFlags.CARRY
    let s1 := if data &&& 1 = 1 then s.set_carry_flag else s.clear_carry_flag
    let data1 := data >>> 1
    let data2 := if old_carry then data1 ||| 0b10000000 else data1
    ((s1.mem_write addr data2).update_zero_and_negative_flags data2, data2)

/-- `CPU::inc` (memory increment, wrapping). -/
def CPU.inc (s : CPU) (mode : AddressingMode) : Option (CPU × Nat) :=
  (s.get_operand_address mode).map fun addr =>
    let data := (s.mem_read addr + 1) % 256
    ((s.mem_write addr data).update_zero_and_negative_flags data, data)

/-- `CPU::inx`. -/
def CPU.inx (s : CPU) : CPU :=
  let s1 := { s with register_x := (s.register_x + 1) % 256 }
  s1.update_zero_and_negative_flags s1.register_x

/-- `CPU::iny`. -/
def CPU.iny (s : CPU) : CPU :=
  let s1 := { s with register_y := (s.register_y + 1) % 256 }
  s1.update_zero_and_negative_flags s1.register_y

/-- `CPU::dec` (memory decrement, wrapping: `x.wrapping_sub(1) = (x + 255) % 256`
for a byte `x`). -/
def CPU.dec (s : CPU) (mode : AddressingMode) : Option (CPU × Nat) :=
  (s.get_operand_address mode).map fun addr =>
    let data := (s.mem_read addr + 255) % 256
    ((s.mem_write addr data).update_zero_and_negative_flags data, data)

/-- `CPU::dex`. -/
def CPU.dex (s : CPU) : CPU :=
  let s1 := { s with register_x := (s.register_x + 255) % 256 }
  s1.update_zero_and_negative_flags s1.register_x

/-- `CPU::dey`. -/
def CPU.dey (s : CPU) : CPU :=
  let s1 := { s with register_y := (s.register_y + 255) % 256 }
  s1.update_zero_and_negative_flags s1.register_y

/-- `CPU::compare`: shared by CMP/CPX/CPY.  `wrapping_sub` on bytes is
`(x + 256 - d) % 256` (the operand `d` is a byte, so no underflow). -/
def CPU.compare (s : CPU) (mode : AddressingMode) (compare_with : Nat) :
    Option CPU :=
  (s.get_operand_address mode).map fun addr =>
    let data := s.mem_read addr
    let s1 :=
      if data ≤ compare_with then
        { s with status := CpuFlags.insert s.status CpuFlags.CARRY }
      else { s with status := CpuFlags.remove s.status CpuFlags.CARRY }
    s1.update_zero_and_negative_flags ((compare_with + 256 - data) % 256)

/-- `CPU::branch`: when the condition holds, add the sign-extended operand
byte to the program counter (`(d as i8) as u16` is `d` when `d < 128` and
`0xFF00 + d` otherwise). -/
def CPU.branch (s : CPU) (condition : Bool) : CPU :=
  if condition then
    let jump := s.mem_read s.program_counter
    let jumpExt := if jump < 128 then jump else 0xFF00 + jump
    { s with program_counter := (s.program_counter + 1 + jumpExt) % 65536 }
  else s

/-- `CPU::bit`: zero flag from `A AND operand`; negative and overflow flags
from bits 7 and 6 of the operand itself. -/
def CPU.bit (s : CPU) (mode : AddressingMode) : Option CPU :=
  (s.get_operand_address mode).map fun addr =>
    let value := s.mem_read addr
    let andv := s.register_a &&& value
    let st1 :=
      if andv = 0 then CpuFlags.insert s.status CpuFlags.ZERO
      else CpuFlags.remove s.status CpuFlags.ZERO
    let st2 := CpuFlags.setb st1 CpuFlags.NEGATIVE (value &&& 0b10000000 > 0)
    let st3 := CpuFlags.setb st2 CpuFlags.OVERFLOW (value &&& 0b01000000 > 0)
    { s with status := st3 }

/-- `CPU::lda`. -/
def CPU.lda (s : CPU) (mode : AddressingMode) : Option CPU :=
  (s.get_operand_address mode).map fun addr =>
    s.set_register_a (s.mem_read addr)

/-- `CPU::ldx`. -/
def CPU.ldx (s : CPU) (mode : AddressingMode) : Option CPU :=
  (s.get_operand_address mode).map fun addr =>
    ({ s with register_x := s.mem_read addr }).update_zero_and_negative_flags
      (s.mem_read addr)

/-- `CPU::ldy`. -/
def CPU.ldy (s : CPU) (mode : AddressingMode) : Option CPU :=
  (s.get_operand_address mode).map fun addr =>
    ({ s with register_y := s.mem_read addr }).update_zero_and_negative_flags
      (s.mem_read addr)

/-- `CPU::sta`. -/
def CPU.sta (s : CPU) (mode : AddressingMode) : Option CPU :=
  (s.get_operand_address mode).map fun addr => s.mem_write addr s.register_a

/-- `CPU::tax`. -/
def CPU.tax (s : CPU) : CPU :=
  let s1 := { s with register_x := s.register_a }
  s1.update_zero_and_negative_flags s1.register_x

/-- `CPU::pla`. -/
def CPU.pla (s : CPU) : CPU :=
  let (data, s1) := s.stack_pop
  s1.set_register_a data

/-- `CPU::php`: push the status with both break bits set. -/
def CPU.php (s : CPU) : CPU :=
  s.stack_push
    (CpuFlags.insert (CpuFlags.insert s.status CpuFlags.BREAK) CpuFlags.BREAK2)

/-- `CPU::plp`: pop the status byte, then force break clear and break2 set. -/
def CPU.plp (s : CPU) : CPU :=
  let (data, s1) := s.stack_pop
  { s1 with status :=
      CpuFlags.insert (CpuFlags.remove data CpuFlags.BREAK) CpuFlags.BREAK2 }

/-- `CPU::sub_from_register_a` (unofficial SBC building block). -/
def CPU.sub_from_register_a (s : CPU) (data : Nat) : CPU :=
  s.add_to_register_a (255 - data)

/-- `CPU::and_with_register_a`. -/
def CPU.and_with_register_a (s : CPU) (data : Nat) : CPU :=
  s.set_register_a (data &&& s.register_a)

/-- `CPU::xor_with_register_a`. -/
def CPU.xor_with_register_a (s : CPU) (data : Nat) : CPU :=
  s.set_register_a (data ^^^ s.register_a)

/-- `CPU::or_with_register_a`. -/
def CPU.or_with_register_a (s : CPU) (data : Nat) : CPU :=
  s.set_register_a (data ||| s.register_a)

end Nes

namespace Nes

/-- Opcode descriptor, from `struct OpCode` in src/src/opcodes.rs. -/
structure OpCode where
  code : Nat
  mnemonic : String
  len : Nat
  cycles : Nat
  mode : AddressingMode
deriving DecidableEq

/-- Entries 0 to 63 of the `CPU_OPS_CODES` table
(split into four segments purely to keep elaboration cheap). -/
def OPS_SEG_0 : List OpCode := [
  ⟨0x00, "BRK", 1, 7, .NoneAddressing⟩,
  ⟨0xea, "NOP", 1, 2, .NoneAddressing⟩,
  ⟨0x69, "ADC", 2, 2, .Immediate⟩,
  ⟨0x65, "ADC", 2, 3, .ZeroPage⟩,
  ⟨0x75, "ADC", 2, 4, .ZeroPage_X⟩,
  ⟨0x6D, "ADC", 3, 4, .Absolute⟩,
  ⟨0x7D, "ADC", 3, 4, .Absolute_X⟩,
  ⟨0x79, "ADC", 3, 4, .Absolute_Y⟩,
  ⟨0x61, "ADC", 2, 6, .Indirect_X⟩,
  ⟨0x71, "ADC", 2, 5, .Indirect_Y⟩,
  ⟨0xE9, "SBC", 2, 2, .Immediate⟩,
  ⟨0xE5, "SBC", 2, 3, .ZeroPage⟩,
  ⟨0xF5, "SBC", 2, 4, .ZeroPage_X⟩,
  ⟨0xED, "SBC", 3, 4, .Absolute⟩,
  ⟨0xFD, "SBC", 3, 4, .Absolute_X⟩,
  ⟨0xF9, "SBC", 3, 4, .Absolute_Y⟩,
  ⟨0xE1, "SBC", 2, 6, .Indirect_X⟩,
  ⟨0xF1, "SBC", 2, 5, .Indirect_Y⟩,
  ⟨0x29, "AND", 2, 2, .Immediate⟩,
  ⟨0x25, "AND", 2, 3, .ZeroPage⟩,
  ⟨0x35, "AND", 2, 4, .ZeroPage_X⟩,
  ⟨0x2D, "AND", 3, 4, .Absolute⟩,
  ⟨0x3D, "AND", 3, 4, .Absolute_X⟩,
  ⟨0x39, "AND", 3, 4, .Absolute_Y⟩,
  ⟨0x21, "AND", 2, 6, .Indirect_X⟩,
  ⟨0x31, "AND", 2, 5, .Indirect_Y⟩,
  ⟨0x49, "EOR", 2, 2, .Immediate⟩,
  ⟨0x45, "EOR", 2, 3, .ZeroPage⟩,
  ⟨0x55, "EOR", 2, 4, .ZeroPage_X⟩,
  ⟨0x4D, "EOR", 3, 4, .Absolute⟩,
  ⟨0x5D, "EOR", 3, 4, .Absolute_X⟩,
  ⟨0x59, "EOR", 3, 4, .Absolute_Y⟩,
  ⟨0x41, "EOR", 2, 6, .Indirect_X⟩,
  ⟨0x51, "EOR", 2, 5, .Indirect_Y⟩,
  ⟨0x09, "ORA", 2, 2, .Immediate⟩,
  ⟨0x05, "ORA", 2, 3, .ZeroPage⟩,
  ⟨0x15, "ORA", 2, 4, .ZeroPage_X⟩,
  ⟨0x0D, "ORA", 3, 4, .Absolute⟩,
  ⟨0x1D, "ORA", 3, 4, .Absolute_X⟩,
  ⟨0x19, "ORA", 3, 4, .Absolute_Y⟩,
  ⟨0x01, "ORA", 2, 6, .Indirect_X⟩,
  ⟨0x11, "ORA", 2, 5, .Indirect_Y⟩,
  ⟨0x0A, "ASL", 1, 2, .NoneAddressing⟩,
  ⟨0x06, "ASL", 2, 5, .ZeroPage⟩,
  ⟨0x16, "ASL", 2, 6, .ZeroPage_X⟩,
  ⟨0x0E, "ASL", 3, 6, .Absolute⟩,
  ⟨0x1E, "ASL", 3, 7, .Absolute_X⟩,
  ⟨0x4A, "LSR", 1, 2, .NoneAddressing⟩,
  ⟨0x46, "LSR", 2, 5, .ZeroPage⟩,
  ⟨0x56, "LSR", 2, 6, .ZeroPage_X⟩,
  ⟨0x4E, "LSR", 3, 6, .Absolute⟩,
  ⟨0x5E, "LSR", 3, 7, .Absolute_X⟩,
  ⟨0x2A, "ROL", 1, 2, .NoneAddressing⟩,
  ⟨0x26, "ROL", 2, 5, .ZeroPage⟩,
  ⟨0x36, "ROL", 2, 6, .ZeroPage_X⟩,
  ⟨0x2E, "ROL", 3, 6, .Absolute⟩,
  ⟨0x3E, "ROL", 3, 7, .Absolute_X⟩,
  ⟨0x6A, "ROR", 1, 2, .NoneAddressing⟩,
  ⟨0x66, "ROR", 2, 5, .ZeroPage⟩,
  ⟨0x76, "ROR", 2, 6, .ZeroPage_X⟩,
  ⟨0x6E, "ROR", 3, 6, .Absolute⟩,
  ⟨0x7E, "ROR", 3, 7, .Absolute_X⟩,
  ⟨0xE6, "INC", 2, 5, .ZeroPage⟩,
  ⟨0xF6, "INC", 2, 6, .ZeroPage_X⟩
]

/-- Entries 64 to 127 of the `CPU_OPS_CODES` table
(split into four segments purely to keep elaboration cheap). -/
def OPS_SEG_1 : List OpCode := [
  ⟨0xEE, "INC", 3, 6, .Absolute⟩,
  ⟨0xFE, "INC", 3, 7, .Absolute_X⟩,
  ⟨0xE8, "INX", 1, 2, .NoneAddressing⟩,
  ⟨0xC8, "INY", 1, 2, .NoneAddressing⟩,
  ⟨0xC6, "DEC", 2, 5, .ZeroPage⟩,
  ⟨0xD6, "DEC", 2, 6, .ZeroPage_X⟩,
  ⟨0xCE, "DEC", 3, 6, .Absolute⟩,
  ⟨0xDE, "DEC", 3, 7, .Absolute_X⟩,
  ⟨0xCA, "DEX", 1, 2, .NoneAddressing⟩,
  ⟨0x88, "DEY", 1, 2, .NoneAddressing⟩,
  ⟨0xC9, "CMP", 2, 2, .Immediate⟩,
  ⟨0xC5, "CMP", 2, 3, .ZeroPage⟩,
  ⟨0xD5, "CMP", 2, 4, .ZeroPage_X⟩,
  ⟨0xCD, "CMP", 3, 4, .Absolute⟩,
  ⟨0xDD, "CMP", 3, 4, .Absolute_X⟩,
  ⟨0xD9, "CMP", 3, 4, .Absolute_Y⟩,
  ⟨0xC1, "CMP", 2, 6, .Indirect_X⟩,
  ⟨0xD1, "CMP", 2, 5, .Indirect_Y⟩,
  ⟨0xC0, "CPY", 2, 2, .Immediate⟩,
  ⟨0xC4, "CPY", 2, 3, .ZeroPage⟩,
  ⟨0xCC, "CPY", 3, 4, .Absolute⟩,
  ⟨0xE0, "CPX", 2, 2, .Immediate⟩,
  ⟨0xE4, "CPX", 2, 3, .ZeroPage⟩,
  ⟨0xEC, "CPX", 3, 4, .Absolute⟩,
  ⟨0x4C, "JMP", 3, 3, .NoneAddressing⟩,
  ⟨0x6C, "JMP", 3, 5, .NoneAddressing⟩,
  ⟨0x20, "JSR", 3, 6, .NoneAddressing⟩,
  ⟨0x60, "RTS", 1, 6, .NoneAddressing⟩,
  ⟨0x40, "RTI", 1, 6, .NoneAddressing⟩,
  ⟨0xD0, "BNE", 2, 2, .NoneAddressing⟩,
  ⟨0x70, "BVS", 2, 2, .NoneAddressing⟩,
  ⟨0x50, "BVC", 2, 2, .NoneAddressing⟩,
  ⟨0x30, "BMI", 2, 2, .NoneAddressing⟩,
  ⟨0xF0, "BEQ", 2, 2, .NoneAddressing⟩,
  ⟨0xB0, "BCS", 2, 2, .NoneAddressing⟩,
  ⟨0x90, "BCC", 2, 2, .NoneAddressing⟩,
  ⟨0x10, "BPL", 2, 2, .NoneAddressing⟩,
  ⟨0x24, "BIT", 2, 3, .ZeroPage⟩,
  ⟨0x2C, "BIT", 3, 4, .Absolute⟩,
  ⟨0xA9, "LDA", 2, 2, .Immediate⟩,
  ⟨0xA5, "LDA", 2, 3, .ZeroPage⟩,
  ⟨0xB5, "LDA", 2, 4, .ZeroPage_X⟩,
  ⟨0xAD, "LDA", 3, 4, .Absolute⟩,
  ⟨0xBD, "LDA", 3, 4, .Absolute_X⟩,
  ⟨0xB9, "LDA", 3, 4, .Absolute_Y⟩,
  ⟨0xA1, "LDA", 2, 6, .Indirect_X⟩,
  ⟨0xB1, "LDA", 2, 5, .Indirect_Y⟩,
  ⟨0xA2, "LDX", 2, 2, .Immediate⟩,
  ⟨0xA6, "LDX", 2, 3, .ZeroPage⟩,
  ⟨0xB6, "LDX", 2, 4, .ZeroPage_Y⟩,
  ⟨0xAE, "LDX", 3, 4, .Absolute⟩,
  ⟨0xBE, "LDX", 3, 4, .Absolute_Y⟩,
  ⟨0xA0, "LDY", 2, 2, .Immediate⟩,
  ⟨0xA4, "LDY", 2, 3, .ZeroPage⟩,
  ⟨0xB4, "LDY", 2, 4, .ZeroPage_X⟩,
  ⟨0xAC, "LDY", 3, 4, .Absolute⟩,
  ⟨0xBC, "LDY", 3, 4, .Absolute_X⟩,
  ⟨0x85, "STA", 2, 3, .ZeroPage⟩,
  ⟨0x95, "STA", 2, 4, .ZeroPage_X⟩,
  ⟨0x8D, "STA", 3, 4, .Absolute⟩,
  ⟨0x9D, "STA", 3, 5, .Absolute_X⟩,
  ⟨0x99, "STA", 3, 5, .Absolute_Y⟩,
  ⟨0x81, "STA", 2, 6, .Indirect_X⟩,
  ⟨0x91, "STA", 2, 6, .Indirect_Y⟩
]

/-- Entries 128 to 191 of the `CPU_OPS_CODES` table
(split into four segments purely to keep elaboration cheap). -/
def OPS_SEG_2 : List OpCode := [
  ⟨0x86, "STX", 2, 3, .ZeroPage⟩,
  ⟨0x96, "STX", 2, 4, .ZeroPage_Y⟩,
  ⟨0x8E, "STX", 3, 4, .Absolute⟩,
  ⟨0x84, "STY", 2, 3, .ZeroPage⟩,
  ⟨0x94, "STY", 2, 4, .ZeroPage_X⟩,
  ⟨0x8C, "STY", 3, 4, .Absolute⟩,
  ⟨0xD8, "CLD", 1, 2, .NoneAddressing⟩,
  ⟨0x58, "CLI", 1, 2, .NoneAddressing⟩,
  ⟨0xB8, "CLV", 1, 2, .NoneAddressing⟩,
  ⟨0x18, "CLC", 1, 2, .NoneAddressing⟩,
  ⟨0x38, "SEC", 1, 2, .NoneAddressing⟩,
  ⟨0x78, "SEI", 1, 2, .NoneAddressing⟩,
  ⟨0xF8, "SED", 1, 2, .NoneAddressing⟩,
  ⟨0xAA, "TAX", 1, 2, .NoneAddressing⟩,
  ⟨0xA8, "TAY", 1, 2, .NoneAddressing⟩,
  ⟨0xBA, "TSX", 1, 2, .NoneAddressing⟩,
  ⟨0x8A, "TXA", 1, 2, .NoneAddressing⟩,
  ⟨0x9A, "TXS", 1, 2, .NoneAddressing⟩,
  ⟨0x98, "TYA", 1, 2, .NoneAddressing⟩,
  ⟨0x48, "PHA", 1, 3, .NoneAddressing⟩,
  ⟨0x68, "PLA", 1, 4, .NoneAddressing⟩,
  ⟨0x08, "PHP", 1, 3, .NoneAddressing⟩,
  ⟨0x28, "PLP", 1, 4, .NoneAddressing⟩,
  ⟨0xc7, "*DCP", 2, 5, .ZeroPage⟩,
  ⟨0xd7, "*DCP", 2, 6, .ZeroPage_X⟩,
  ⟨0xCF, "*DCP", 3, 6, .Absolute⟩,
  ⟨0xdF, "*DCP", 3, 7, .Absolute_X⟩,
  ⟨0xdb, "*DCP", 3, 7, .Absolute_Y⟩,
  ⟨0xd3, "*DCP", 2, 8, .Indirect_Y⟩,
  ⟨0xc3, "*DCP", 2, 8, .Indirect_X⟩,
  ⟨0x27, "*RLA", 2, 5, .ZeroPage⟩,
  ⟨0x37, "*RLA", 2, 6, .ZeroPage_X⟩,
  ⟨0x2F, "*RLA", 3, 6, .Absolute⟩,
  ⟨0x3F, "*RLA", 3, 7, .Absolute_X⟩,
  ⟨0x3b, "*RLA", 3, 7, .Absolute_Y⟩,
  ⟨0x33, "*RLA", 2, 8, .Indirect_Y⟩,
  ⟨0x23, "*RLA", 2, 8, .Indirect_X⟩,
  ⟨0x07, "*SLO", 2, 5, .ZeroPage⟩,
  ⟨0x17, "*SLO", 2, 6, .ZeroPage_X⟩,
  ⟨0x0F, "*SLO", 3, 6, .Absolute⟩,
  ⟨0x1f, "*SLO", 3, 7, .Absolute_X⟩,
  ⟨0x1b, "*SLO", 3, 7, .Absolute_Y⟩,
  ⟨0x03, "*SLO", 2, 8, .Indirect_X⟩,
  ⟨0x13, "*SLO", 2, 8, .Indirect_Y⟩,
  ⟨0x47, "*SRE", 2, 5, .ZeroPage⟩,
  ⟨0x57, "*SRE", 2, 6, .ZeroPage_X⟩,
  ⟨0x4F, "*SRE", 3, 6, .Absolute⟩,
  ⟨0x5f, "*SRE", 3, 7, .Absolute_X⟩,
  ⟨0x5b, "*SRE", 3, 7, .Absolute_Y⟩,
  ⟨0x43, "*SRE", 2, 8, .Indirect_X⟩,
  ⟨0x53, "*SRE", 2, 8, .Indirect_Y⟩,
  ⟨0x80, "*NOP", 2, 2, .Immediate⟩,
  ⟨0x82, "*NOP", 2, 2, .Immediate⟩,
  ⟨0x89, "*NOP", 2, 2, .Immediate⟩,
  ⟨0xc2, "*NOP", 2, 2, .Immediate⟩,
  ⟨0xe2, "*NOP", 2, 2, .Immediate⟩,
  ⟨0xCB, "*AXS", 2, 2, .Immediate⟩,
  ⟨0x6B, "*ARR", 2, 2, .Immediate⟩,
  ⟨0xeb, "*SBC", 2, 2, .Immediate⟩,
  ⟨0x0b, "*ANC", 2, 2, .Immediate⟩,
  ⟨0x2b, "*ANC", 2, 2, .Immediate⟩,
  ⟨0x4b, "*ALR", 2, 2, .Immediate⟩,
  ⟨0x04, "*NOP", 2, 3, .ZeroPage⟩,
  ⟨0x44, "*NOP", 2, 3, .ZeroPage⟩
]

/-- Entries 192 to 255 of the `CPU_OPS_CODES` table
(split into four segments purely to keep elaboration cheap). -/
def OPS_SEG_3 : List OpCode := [
  ⟨0x64, "*NOP", 2, 3, .ZeroPage⟩,
  ⟨0x14, "*NOP", 2, 4, .ZeroPage_X⟩,
  ⟨0x34, "*NOP", 2, 4, .ZeroPage_X⟩,
  ⟨0x54, "*NOP", 2, 4, .ZeroPage_X⟩,
  ⟨0x74, "*NOP", 2, 4, .ZeroPage_X⟩,
  ⟨0xd4, "*NOP", 2, 4, .ZeroPage_X⟩,
  ⟨0xf4, "*NOP", 2, 4, .ZeroPage_X⟩,
  ⟨0x0c, "*NOP", 3, 4, .Absolute⟩,
  ⟨0x1c, "*NOP", 3, 4, .Absolute_X⟩,
  ⟨0x3c, "*NOP", 3, 4, .Absolute_X⟩,
  ⟨0x5c, "*NOP", 3, 4, .Absolute_X⟩,
  ⟨0x7c, "*NOP", 3, 4, .Absolute_X⟩,
  ⟨0xdc, "*NOP", 3, 4, .Absolute_X⟩,
  ⟨0xfc, "*NOP", 3, 4, .Absolute_X⟩,
  ⟨0x67, "*RRA", 2, 5, .ZeroPage⟩,
  ⟨0x77, "*RRA", 2, 6, .ZeroPage_X⟩,
  ⟨0x6f, "*RRA", 3, 6, .Absolute⟩,
  ⟨0x7f, "*RRA", 3, 7, .Absolute_X⟩,
  ⟨0x7b, "*RRA", 3, 7, .Absolute_Y⟩,
  ⟨0x63, "*RRA", 2, 8, .Indirect_X⟩,
  ⟨0x73, "*RRA", 2, 8, .Indirect_Y⟩,
  ⟨0xe7, "*ISB", 2, 5, .ZeroPage⟩,
  ⟨0xf7, "*ISB", 2, 6, .ZeroPage_X⟩,
  ⟨0xef, "*ISB", 3, 6, .Absolute⟩,
  ⟨0xff, "*ISB", 3, 7, .Absolute_X⟩,
  ⟨0xfb, "*ISB", 3, 7, .Absolute_Y⟩,
  ⟨0xe3, "*ISB", 2, 8, .Indirect_X⟩,
  ⟨0xf3, "*ISB", 2, 8, .Indirect_Y⟩,
  ⟨0x02, "*NOP", 1, 2, .NoneAddressing⟩,
  ⟨0x12, "*NOP", 1, 2, .NoneAddressing⟩,
  ⟨0x22, "*NOP", 1, 2, .NoneAddressing⟩,
  ⟨0x32, "*NOP", 1, 2, .NoneAddressing⟩,
  ⟨0x42, "*NOP", 1, 2, .NoneAddressing⟩,
  ⟨0x52, "*NOP", 1, 2, .NoneAddressing⟩,
  ⟨0x62, "*NOP", 1, 2, .NoneAddressing⟩,
  ⟨0x72, "*NOP", 1, 2, .NoneAddressing⟩,
  ⟨0x92, "*NOP", 1, 2, .NoneAddressing⟩,
  ⟨0xb2, "*NOP", 1, 2, .NoneAddressing⟩,
  ⟨0xd2, "*NOP", 1, 2, .NoneAddressing⟩,
  ⟨0xf2, "*NOP", 1, 2, .NoneAddressing⟩,
  ⟨0x1a, "*NOP", 1, 2, .NoneAddressing⟩,
  ⟨0x3a, "*NOP", 1, 2, .NoneAddressing⟩,
  ⟨0x5a, "*NOP", 1, 2, .NoneAddressing⟩,
  ⟨0x7a, "*NOP", 1, 2, .NoneAddressing⟩,
  ⟨0xda, "*NOP", 1, 2, .NoneAddressing⟩,
  ⟨0xfa, "*NOP", 1, 2, .NoneAddressing⟩,
  ⟨0xab, "*LXA", 2, 3, .Immediate⟩,
  ⟨0x8b, "*XAA", 2, 3, .Immediate⟩,
  ⟨0xbb, "*LAS", 3, 2, .Absolute_Y⟩,
  ⟨0x9b, "*TAS", 3, 2, .Absolute_Y⟩,
  ⟨0x93, "*AHX", 2, 8, .Indirect_Y⟩,
  ⟨0x9f, "*AHX", 3, 4, .Absolute_Y⟩,
  ⟨0x9e, "*SHX", 3, 4, .Absolute_Y⟩,
  ⟨0x9c, "*SHY", 3, 4, .Absolute_X⟩,
  ⟨0xa7, "*LAX", 2, 3, .ZeroPage⟩,
  ⟨0xb7, "*LAX", 2, 4, .ZeroPage_Y⟩,
  ⟨0xaf, "*LAX", 3, 4, .Absolute⟩,
  ⟨0xbf, "*LAX", 3, 4, .Absolute_Y⟩,
  ⟨0xa3, "*LAX", 2, 6, .Indirect_X⟩,
  ⟨0xb3, "*LAX", 2, 5, .Indirect_Y⟩,
  ⟨0x87, "*SAX", 2, 3, .ZeroPage⟩,
  ⟨0x97, "*SAX", 2, 4, .ZeroPage_Y⟩,
  ⟨0x8f, "*SAX", 3, 4, .Absolute⟩,
  ⟨0x83, "*SAX", 2, 6, .Indirect_X⟩
]

/-- The static opcode table `CPU_OPS_CODES` from src/src/opcodes.rs, in
source order (the four segments concatenated; page-cross cycle
adjustments appear only in comments there and are not part of the data). -/
def CPU_OPS_CODES : List OpCode := OPS_SEG_0 ++ OPS_SEG_1 ++ OPS_SEG_2 ++ OPS_SEG_3

/-- `OPCODES_MAP`: lookup by opcode byte.  The `HashMap` is built by
inserting each table entry keyed by its `code`; the codes are pairwise
distinct, so lookup agrees with a first-match scan of the table. -/
def OPCODES_MAP (c : Nat) : Option OpCode :=
  CPU_OPS_CODES.find? fun op => op.code == c

end Nes

namespace Nes

/-- The JMP-indirect arm (opcode 0x6C) of the dispatch `match` in
`CPU::run_with_callback`: read the 16-bit pointer after the opcode; if its
low byte is 0xFF, fetch the target high byte from the start of the same
page (`pointer AND 0xFF00`), reproducing the 6502 page-boundary quirk;
otherwise read the target as a normal little-endian word. -/
def CPU.jmpIndirectArm (s : CPU) : CPU :=
  let mem_address := s.mem_read_u16 s.program_counter
  let indirect_ref :=
    if mem_address &&& 0x00FF = 0x00FF then
      let lo := s.mem_read mem_address
      let hi := s.mem_read (mem_address &&& 0xFF00)
      hi <<< 8 ||| lo
    else s.mem_read_u16 mem_address
  { s with program_counter := indirect_ref }

/-- The JSR arm (opcode 0x20): push `program_counter + 2 - 1` (the
program counter here already points past the opcode byte), then jump to
the absolute operand, read after the push as in the source. -/
def CPU.jsrArm (s : CPU) : CPU :=
  let s1 := s.stack_push_u16 ((s.program_counter + 2 - 1) % 65536)
  { s1 with program_counter := s1.mem_read_u16 s1.program_counter }

/-- The RTS arm (opcode 0x60): pop a 16-bit value and set the program
counter to it plus one. -/
def CPU.rtsArm (s : CPU) : CPU :=
  let (v, s1) := s.stack_pop_u16
  { s1 with program_counter := (v + 1) % 65536 }

/-- The unofficial DCP arm (opcodes 0xC7/0xD7/0xCF/0xDF/0xDB/0xD3/0xC3):
decrement the operand byte (wrapping), write it back, set carry when the
decremented value does not exceed the accumulator (otherwise leave the
carry flag untouched), and update zero/negative from
`accumulator.wrapping_sub(decremented)`. -/
def CPU.dcpArm (s : CPU) (mode : AddressingMode) : Option CPU :=
  (s.get_operand_address mode).map fun addr =>
    let data := (s.mem_read addr + 255) % 256
    let s1 := s.mem_write addr data
    let s2 :=
      if data ≤ s1.register_a then
        { s1 with status := CpuFlags.insert s1.status CpuFlags.CARRY }
      else s1
    s2.update_zero_and_negative_flags ((s2.register_a + 256 - data) % 256)

/-- Result of executing one decoded instruction body: `halted` for the BRK
arm (the `return` in the source loop), `ran` otherwise. -/
inductive ExecOut where
  | ran (s : CPU)
  | halted (s : CPU)

set_option maxHeartbeats 1000000 in
/-- The opcode dispatch `match` of `CPU::run_with_callback`
(src/src/cpu.rs lines 250-756), one instruction body per arm, taking the
decoded opcode byte and the table's addressing mode.  The state `s` is the
post-fetch state (program counter already past the opcode byte).  The
final wildcard is unreachable for byte values: the source `match` is
exhaustive over `u8`. -/
def execInstr (code : Nat) (mode : AddressingMode) (s : CPU) : Option ExecOut :=
  match code with
  | 0x69 | 0x65 | 0x75 | 0x6d | 0x7d | 0x79 | 0x61 | 0x71 =>
      (s.adc mode).map ExecOut.ran
  | 0xe9 | 0xe5 | 0xf5 | 0xed | 0xfd | 0xf9 | 0xe1 | 0xf1 =>
      (s.sbc mode).map ExecOut.ran
  | 0x29 | 0x25 | 0x35 | 0x2d | 0x3d | 0x39 | 0x21 | 0x31 =>
      (s.and mode).map ExecOut.ran
  | 0x49 | 0x45 | 0x55 | 0x4d | 0x5d | 0x59 | 0x41 | 0x51 =>
      (s.eor mode).map ExecOut.ran
  | 0x09 | 0x05 | 0x15 | 0x0d | 0x1d | 0x19 | 0x01 | 0x11 =>
      (s.ora mode).map ExecOut.ran
  | 0x0a => some (ExecOut.ran s.asl_accumulator)
  | 0x06 | 0x16 | 0x0e | 0x1e => (s.asl mode).map fun p => ExecOut.ran p.1
  | 0x4a => some (ExecOut.ran s.lsr_accumulator)
  | 0x46 | 0x56 | 0x4e | 0x5e => (s.lsr mode).map fun p => ExecOut.ran p.1
  | 0x2a => some (ExecOut.ran s.rol_accumulator)
  | 0x26 | 0x36 | 0x2e | 0x3e => (s.rol mode).map fun p => ExecOut.ran p.1
  | 0x6a => some (ExecOut.ran s.ror_accumulator)
  | 0x66 | 0x76 | 0x6e | 0x7e => (s.ror mode).map fun p => ExecOut.ran p.1
  | 0xe6 | 0xf6 | 0xee | 0xfe => (s.inc mode).map fun p => ExecOut.ran p.1
  | 0xE8 => some (ExecOut.ran s.inx)
  | 0xC8 => some (ExecOut.ran s.iny)
  | 0xc6 | 0xd6 | 0xce | 0xde => (s.dec mode).map fun p => ExecOut.ran p.1
  | 0xCA => some (ExecOut.ran s.dex)
  | 0x88 => some (ExecOut.ran s.dey)
  | 0xc9 | 0xc5 | 0xd5 | 0xcd | 0xdd | 0xd9 | 0xc1 | 0xd1 =>
      (s.compare mode s.register_a).map ExecOut.ran
  | 0xc0 | 0xc4 | 0xcc => (s.compare mode s.register_y).map ExecOut.ran
  | 0xe0 | 0xe4 | 0xec => (s.compare mode s.register_x).map ExecOut.ran
  | 0x4c =>
      some (ExecOut.ran
        { s with program_counter := s.mem_read_u16 s.program_counter })
  | 0x6c => some (ExecOut.ran s.jmpIndirectArm)
  | 0x20 => some (ExecOut.ran s.jsrArm)
  | 0x60 => some (ExecOut.ran s.rtsArm)
  | 0x40 =>
      let (b, s1) := s.stack_pop
      let st := CpuFlags.insert (CpuFlags.remove b CpuFlags.BREAK) CpuFlags.BREAK2
      let s2 := { s1 with status := st }
      let (v, s3) := s2.stack_pop_u16
      some (ExecOut.ran { s3 with program_counter := v })
  | 0xD0 =>
      some (ExecOut.ran (s.branch (!CpuFlags.contains s.status CpuFlags.ZERO)))
  | 0x70 =>
      some (ExecOut.ran (s.branch (CpuFlags.contains s.status CpuFlags.OVERFLOW)))
  | 0x50 =>
      some (ExecOut.ran (s.branch (!CpuFlags.contains s.status CpuFlags.OVERFLOW)))
  | 0x30 =>
      some (ExecOut.ran (s.branch (CpuFlags.contains s.status CpuFlags.NEGATIVE)))
  | 0xF0 =>
      some (ExecOut.ran (s.branch (CpuFlags.contains s.status CpuFlags.ZERO)))
  | 0xB0 =>
      some (ExecOut.ran (s.branch (CpuFlags.contains s.status CpuFlags.CARRY)))
  | 0x90 =>
      some (ExecOut.ran (s.branch (!CpuFlags.contains s.status CpuFlags.CARRY)))
  | 0x10 =>
      some (ExecOut.ran (s.branch (!CpuFlags.contains s.status CpuFlags.NEGATIVE)))
  | 0x24 | 0x2c => (s.bit mode).map ExecOut.ran
  | 0xA9 | 0xA5 | 0xB5 | 0xAD | 0xBD | 0xB9 | 0xA1 | 0xB1 =>
      (s.lda mode).map ExecOut.ran
  | 0xa2 | 0xa6 | 0xb6 | 0xae | 0xbe => (s.ldx mode).map ExecOut.ran
  | 0xa0 | 0xa4 | 0xb4 | 0xac | 0xbc => (s.ldy mode).map ExecOut.ran
  | 0x85 | 0x95 | 0x8D | 0x9D | 0x99 | 0x81 | 0x91 =>
      (s.sta mode).map ExecOut.ran
  | 0x86 | 0x96 | 0x8e =>
      (s.get_operand_address mode).map fun addr =>
        ExecOut.ran (s.mem_write addr s.register_x)
  | 0x84 | 0x94 | 0x8c =>
      (s.get_operand_address mode).map fun addr =>
        ExecOut.ran (s.mem_write addr s.register_y)
  | 0xD8 =>
      some (ExecOut.ran
        { s with status := CpuFlags.remove s.status CpuFlags.DECIMAL_MODE })
  | 0x58 =>
      some (ExecOut.ran
        { s with status := CpuFlags.remove s.status CpuFlags.INTERRUPT_DISABLE })
  | 0xB8 =>
      some (ExecOut.ran
        { s with status := CpuFlags.remove s.status CpuFlags.OVERFLOW })
  | 0x18 => some (ExecOut.ran s.clear_carry_flag)
  | 0x38 => some (ExecOut.ran s.set_carry_flag)
  | 0x78 =>
      some (ExecOut.ran
        { s with status := CpuFlags.insert s.status CpuFlags.INTERRUPT_DISABLE })
  | 0xF8 =>
      some (ExecOut.ran
        { s with status := CpuFlags.insert s.status CpuFlags.DECIMAL_MODE })
  | 0xAA => some (ExecOut.ran s.tax)
  | 0xA8 =>
      some (ExecOut.ran
        (({ s with register_y := s.register_a }).update_zero_and_negative_flags
          s.register_a))
  | 0xBA =>
      some (ExecOut.ran
        (({ s with register_x := s.stack_pointer }).update_zero_and_negative_flags
          s.stack_pointer))
  | 0x8A =>
      some (ExecOut.ran
        (({ s with register_a := s.register_x }).update_zero_and_negative_flags
          s.register_x))
  | 0x9A => some (ExecOut.ran { s with stack_pointer := s.register_x })
  | 0x98 =>
      some (ExecOut.ran
        (({ s with register_a := s.register_y }).update_zero_and_negative_flags
          s.register_y))
  | 0x48 => some (ExecOut.ran (s.stack_push s.register_a))
  | 0x68 => some (ExecOut.ran s.pla)
  | 0x08 => some (ExecOut.ran s.php)
  | 0x28 => some (ExecOut.ran s.plp)
  | 0xc7 | 0xd7 | 0xCF | 0xdF | 0xdb | 0xd3 | 0xc3 =>
      (s.dcpArm mode).map ExecOut.ran
  | 0x27 | 0x37 | 0x2F | 0x3F | 0x3b | 0x33 | 0x23 =>
      (s.rol mode).map fun p => ExecOut.ran (p.1.and_with_register_a p.2)
  | 0x07 | 0x17 | 0x0F | 0x1f | 0x1b | 0x03 | 0x13 =>
      (s.asl mode).map fun p => ExecOut.ran (p.1.or_with_register_a p.2)
  | 0x47 | 0x57 | 0x4F | 0x5f | 0x5b | 0x43 | 0x53 =>
      (s.lsr mode).map fun p => ExecOut.ran (p.1.xor_with_register_a p.2)
  | 0x80 | 0x82 | 0x89 | 0xc2 | 0xe2 => some (ExecOut.ran s)
  | 0xCB =>
      (s.get_operand_address mode).map fun addr =>
        let data := s.mem_read addr
        let x_and_a := s.register_x &&& s.register_a
        let result := (x_and_a + 256 - data) % 256
        let s1 :=
          if data ≤ x_and_a then
            { s with status := CpuFlags.insert s.status CpuFlags.CARRY }
          else s
        let s2 := s1.update_zero_and_negative_flags result
        ExecOut.ran { s2 with register_x := result }
  | 0x6B =>
      (s.get_operand_address mode).map fun addr =>
        let data := s.mem_read addr
        let s1 := (s.and_with_register_a data).ror_accumulator
        let result := s1.register_a
        let bit_5 := (result >>> 5) &&& 1
        let bit_6 := (result >>> 6) &&& 1
        let s2 :=
          if bit_6 = 1 then
            { s1 with status := CpuFlags.insert s1.status CpuFlags.CARRY }
          else { s1 with status := CpuFlags.remove s1.status CpuFlags.CARRY }
        let s3 :=
          if bit_5 ^^^ bit_6 = 1 then
            { s2 with status := CpuFlags.insert s2.status CpuFlags.OVERFLOW }
          else { s2 with status := CpuFlags.remove s2.status CpuFlags.OVERFLOW }
        ExecOut.ran (s3.update_zero_and_negative_flags result)
  | 0xeb =>
      (s.get_operand_address mode).map fun addr =>
        ExecOut.ran (s.sub_from_register_a (s.mem_read addr))
  | 0x0b | 0x2b =>
      (s.get_operand_address mode).map fun addr =>
        let s1 := s.and_with_register_a (s.mem_read addr)
        ExecOut.ran
          (if CpuFlags.contains s1.status CpuFlags.NEGATIVE then
            { s1 with status := CpuFlags.insert s1.status CpuFlags.CARRY }
          else { s1 with status := CpuFlags.remove s1.status CpuFlags.CARRY })
  | 0x4b =>
      (s.get_operand_address mode).map fun addr =>
        ExecOut.ran ((s.and_with_register_a (s.mem_read addr)).lsr_accumulator)
  | 0x04 | 0x44 | 0x64 | 0x14 | 0x34 | 0x54 | 0x74 | 0xd4 | 0xf4 | 0x0c
  | 0x1c | 0x3c | 0x5c | 0x7c | 0xdc | 0xfc =>
      (s.get_operand_address mode).map fun addr =>
        let _data := s.mem_read addr
        ExecOut.ran s
  | 0x67 | 0x77 | 0x6f | 0x7f | 0x7b | 0x63 | 0x73 =>
      (s.ror mode).map fun p => ExecOut.ran (p.1.add_to_register_a p.2)
  | 0xe7 | 0xf7 | 0xef | 0xff | 0xfb | 0xe3 | 0xf3 =>
      (s.inc mode).map fun p => ExecOut.ran (p.1.sub_from_register_a p.2)
  | 0x02 | 0x12 | 0x22 | 0x32 | 0x42 | 0x52 | 0x62 | 0x72 | 0x92 | 0xb2
  | 0xd2 | 0xf2 => some (ExecOut.ran s)
  | 0x1a | 0x3a | 0x5a | 0x7a | 0xda | 0xfa => some (ExecOut.ran s)
  | 0xa7 | 0xb7 | 0xaf | 0xbf | 0xa3 | 0xb3 =>
      (s.get_operand_address mode).map fun addr =>
        let s1 := s.set_register_a (s.mem_read addr)
        ExecOut.ran { s1 with register_x := s1.register_a }
  | 0x87 | 0x97 | 0x8f | 0x83 =>
      (s.get_operand_address mode).map fun addr =>
        ExecOut.ran (s.mem_write addr (s.register_a &&& s.register_x))
  | 0xab => (s.lda mode).map fun s1 => ExecOut.ran s1.tax
  | 0x8b =>
      let s1 :=
        ({ s with register_a := s.register_x }).update_zero_and_negative_flags
          s.register_x
      (s1.get_operand_address mode).map fun addr =>
        ExecOut.ran (s1.and_with_register_a (s1.mem_read addr))
  | 0xbb =>
      (s.get_operand_address mode).map fun addr =>
        let data := s.mem_read addr &&& s.stack_pointer
        let s1 := { s with register_a := data, register_x := data, stack_pointer := data }
        ExecOut.ran (s1.update_zero_and_negative_flags data)
  | 0x9b =>
      let data := s.register_a &&& s.register_x
      let s1 := { s with stack_pointer := data }
      let mem_address := (s1.mem_read_u16 s1.program_counter + s1.register_y) % 65536
      let data2 := (((mem_address >>> 8) % 256 + 1) % 256) &&& s1.stack_pointer
      some (ExecOut.ran (s1.mem_write mem_address data2))
  | 0x93 =>
      let pos := s.mem_read s.program_counter
      let mem_address := (s.mem_read_u16 pos + s.register_y) % 65536
      let data := s.register_a &&& s.register_x &&& ((mem_address >>> 8) % 256)
      some (ExecOut.ran (s.mem_write mem_address data))
  | 0x9f =>
      let mem_address := (s.mem_read_u16 s.program_counter + s.register_y) % 65536
      let data := s.register_a &&& s.register_x &&& ((mem_address >>> 8) % 256)
      some (ExecOut.ran (s.mem_write mem_address data))
  | 0x9e =>
      let mem_address := (s.mem_read_u16 s.program_counter + s.register_y) % 65536
      let data := s.register_x &&& (((mem_address >>> 8) % 256 + 1) % 256)
      some (ExecOut.ran (s.mem_write mem_address data))
  | 0x9c =>
      let mem_address := (s.mem_read_u16 s.program_counter + s.register_x) % 65536
      let data := s.register_y &&& (((mem_address >>> 8) % 256 + 1) % 256)
      some (ExecOut.ran (s.mem_write mem_address data))
  | 0xEA => some (ExecOut.ran s)
  | 0x00 => some (ExecOut.halted s)
  | _ => none

/-- One completed loop iteration of `CPU::run_with_callback`:
`next` continues the loop, `halt` is the BRK `return`. -/
inductive StepOut where
  | next (s : CPU)
  | halt (s : CPU)

/-- The post-fetch part of a loop iteration of `CPU::run_with_callback`:
look up the opcode (`.expect`, i.e. abort when absent), execute it, and
apply the step-5 advance `program_counter += len - 1` when the instruction
body left the program counter at its post-fetch value. -/
def dispatchStep (code : Nat) (s : CPU) : Option StepOut :=
  let program_counter_state := s.program_counter
  match OPCODES_MAP code with
  | none => none
  | some opcode =>
    match execInstr code opcode.mode s with
    | none => none
    | some (ExecOut.halted s2) => some (StepOut.halt s2)
    | some (ExecOut.ran s2) =>
      if program_counter_state = s2.program_counter then
        some (StepOut.next
          { s2 with program_counter :=
              (s2.program_counter + (opcode.len - 1)) % 65536 })
      else some (StepOut.next s2)

/-- One full iteration of `CPU::run_with_callback` (the callback, which
must not alter control flow, is omitted): fetch the opcode byte, advance
the program counter past it (wrapping mod 2^16), then decode, execute,
and apply the step-5 advance. -/
def step (s : CPU) : Option StepOut :=
  let code := s.mem_read s.program_counter
  dispatchStep code
    { s with program_counter := (s.program_counter + 1) % 65536 }

end Nes

namespace Nes

/-- Modelled from the spec: the picture-unit register interface
(src/src/ppu is incomplete in this repository snapshot; the spec's
"Picture-unit register interface" lists these named operations and says
the core treats them as opaque side-effecting calls).  The bus forwards
register traffic to them; their internal semantics decide none of the
bus-level claims.  `P` is the picture-unit state type; reads return a
byte and a successor state, writes take a byte and return a state. -/
structure PpuOps (P : Type) where
  read_status : P → Nat × P
  read_oam_data : P → Nat × P
  read_data : P → Nat × P
  write_to_ctrl : P → Nat → P
  write_to_mask : P → Nat → P
  write_to_oam_addr : P → Nat → P
  write_to_oam_data : P → Nat → P
  write_to_scroll : P → Nat → P
  write_to_ppu_addr : P → Nat → P
  write_to_data : P → Nat → P

/-- `struct Bus` from src/src/bus.rs: 2 KiB of VRAM (a byte function,
only the low 11 bits of the index are ever used), the cartridge program
ROM, the picture unit, and the cycle counter. -/
structure Bus (P : Type) where
  cpu_vram : Nat → Nat
  prg_rom : List Nat
  ppu : P
  cycles : Nat

/-- `Bus::read_prg_rom`: offset by 0x8000, mirror a 16 KiB image, then
index the ROM vector (a Rust out-of-bounds index panics, hence `none`). -/
def Bus.read_prg_rom {P : Type} (b : Bus P) (addr : Nat) : Option Nat :=
  let a0 := addr - 0x8000
  let a1 := if b.prg_rom.length = 0x4000 ∧ a0 ≥ 0x4000 then a0 % 0x4000 else a0
  (b.prg_rom.get? a1).map (· % 256)

/-- `impl Mem for Bus`, `mem_read` (src/src/bus.rs lines 86-111): the
match arms in source order.  Reads of the write-only registers
0x2000/0x2001/0x2003/0x2005/0x2006/0x4014 panic (`none`); reads of
0x2002/0x2004/0x2007 go to the picture unit; 0x2008-0x3FFF mirrors down
by masking and re-reads; 0x8000-0xFFFF reads program ROM; anything else
is logged and returns 0. -/
def Bus.mem_read {P : Type} (ops : PpuOps P) (b : Bus P) (address : Nat) :
    Option (Nat × Bus P) :=
  if address ≤ 0x1FFF then
    some (b.cpu_vram (address &&& 0b0000011111111111) % 256, b)
  else if address = 0x2000 ∨ address = 0x2001 ∨ address = 0x2003 ∨
      address = 0x2005 ∨ address = 0x2006 ∨ address = 0x4014 then
    none
  else if address = 0x2002 then
    let (v, p) := ops.read_status b.ppu
    some (v % 256, { b with ppu := p })
  else if address = 0x2004 then
    let (v, p) := ops.read_oam_data b.ppu
    some (v % 256, { b with ppu := p })
  else if address = 0x2007 then
    let (v, p) := ops.read_data b.ppu
    some (v % 256, { b with ppu := p })
  else if 0x2008 ≤ address ∧ address ≤ 0x3FFF then
    Bus.mem_read ops b (address &&& 0b0010000000000111)
  else if 0x8000 ≤ address ∧ address ≤ 0xFFFF then
    (b.read_prg_rom address).map fun v => (v, b)
  else
    some (0, b)
termination_by address
decreasing_by
  exact Nat.lt_of_le_of_lt Nat.and_le_right (by omega)

/-- `impl Mem for Bus`, `mem_write` (src/src/bus.rs lines 113-152): RAM
writes mask the address to 11 bits; 0x2000-0x2007 dispatch to the
picture-unit register writes except 0x2002 (write to the status register
panics); 0x2008-0x3FFF mirrors down and re-writes; a write into ROM
space 0x8000-0xFFFF panics; anything else is logged and ignored. -/
def Bus.mem_write {P : Type} (ops : PpuOps P) (b : Bus P) (address data : Nat) :
    Option (Bus P) :=
  if address ≤ 0x1FFF then
    some { b with cpu_vram := fun x =>
      if x = (address &&& 0b0000011111111111) then data % 256 else b.cpu_vram x }
  else if address = 0x2000 then
    some { b with ppu := ops.write_to_ctrl b.ppu (data % 256) }
  else if address = 0x2001 then
    some { b with ppu := ops.write_to_mask b.ppu (data % 256) }
  else if address = 0x2002 then
    none
  else if address = 0x2003 then
    some { b with ppu := ops.write_to_oam_addr b.ppu (data % 256) }
  else if address = 0x2004 then
    some { b with ppu := ops.write_to_oam_data b.ppu (data % 256) }
  else if address = 0x2005 then
    some { b with ppu := ops.write_to_scroll b.ppu (data % 256) }
  else if address = 0x2006 then
    some { b with ppu := ops.write_to_ppu_addr b.ppu (data % 256) }
  else if address = 0x2007 then
    some { b with ppu := ops.write_to_data b.ppu (data % 256) }
  else if 0x2008 ≤ address ∧ address ≤ 0x3FFF then
    Bus.mem_write ops b (address &&& 0b0010000000000111) data
  else if 0x8000 ≤ address ∧ address ≤ 0xFFFF then
    none
  else
    some b
termination_by address
decreasing_by
  exact Nat.lt_of_le_of_lt Nat.and_le_right (by omega)

end Nes

namespace Nes

/-! ### Arithmetic bridge lemmas -/

set_option maxHeartbeats 2000000 in
set_option maxRecDepth 100000 in
/-- Recombining two bytes little-endian: `hi <<< 8 ||| lo = 256 * hi + lo`. -/
theorem lor_byte : ∀ hi < 256, ∀ lo < 256, hi <<< 8 ||| lo = 256 * hi + lo := by
  decide

/-- `v &&& 255` is `v % 256`. -/
theorem and_255 (v : Nat) : v &&& 255 = v % 256 := by
  simpa using Nat.and_pow_two_sub_one_eq_mod v 8

/-- `v >>> 8` is `v / 256`. -/
theorem shr_8 (v : Nat) : v >>> 8 = v / 256 := by
  rw [Nat.shiftRight_eq_div_pow]

/-- Splitting a 16-bit value into bytes and recombining them is the
identity. -/
theorem u16_bytes_roundtrip (v : Nat) (h : v < 65536) :
    ((v >>> 8) % 256) <<< 8 ||| (v &&& 255) = v := by
  rw [and_255, shr_8]
  have h1 : v / 256 < 256 := by omega
  rw [Nat.mod_eq_of_lt h1]
  rw [lor_byte (v / 256) h1 (v % 256) (Nat.mod_lt _ (by norm_num))]
  omega

/-- A CPU memory read is a byte. -/
theorem CPU.mem_read_lt (s : CPU) (a : Nat) : s.mem_read a < 256 :=
  Nat.mod_lt _ (by norm_num)

/-- A 16-bit read decomposed arithmetically. -/
theorem CPU.mem_read_u16_eq (s : CPU) (a : Nat) :
    s.mem_read_u16 a = 256 * s.mem_read ((a + 1) % 65536) + s.mem_read a := by
  unfold CPU.mem_read_u16
  exact lor_byte _ (s.mem_read_lt _) _ (s.mem_read_lt _)

/-- A 16-bit read is a 16-bit value. -/
theorem CPU.mem_read_u16_lt (s : CPU) (a : Nat) : s.mem_read_u16 a < 65536 := by
  rw [s.mem_read_u16_eq a]
  have h1 := s.mem_read_lt ((a + 1) % 65536)
  have h2 := s.mem_read_lt a
  omega

/-- Reading back a written cell. -/
theorem CPU.mem_read_write_eq (s : CPU) (a d x : Nat)
    (h : x % 65536 = a % 65536) : (s.mem_write a d).mem_read x = d % 256 := by
  simp [CPU.mem_read, CPU.mem_write, h]

/-- Reading an unrelated cell after a write. -/
theorem CPU.mem_read_write_ne (s : CPU) (a d x : Nat)
    (h : x % 65536 ≠ a % 65536) : (s.mem_write a d).mem_read x = s.mem_read x := by
  simp [CPU.mem_read, CPU.mem_write, h]

@[simp]
theorem CPU.mem_write_register_a (s : CPU) (a d : Nat) :
    (s.mem_write a d).register_a = s.register_a := rfl

@[simp]
theorem CPU.mem_write_register_x (s : CPU) (a d : Nat) :
    (s.mem_write a d).register_x = s.register_x := rfl

@[simp]
theorem CPU.mem_write_register_y (s : CPU) (a d : Nat) :
    (s.mem_write a d).register_y = s.register_y := rfl

@[simp]
theorem CPU.mem_write_status (s : CPU) (a d : Nat) :
    (s.mem_write a d).status = s.status := rfl

@[simp]
theorem CPU.mem_write_pc (s : CPU) (a d : Nat) :
    (s.mem_write a d).program_counter = s.program_counter := rfl

@[simp]
theorem CPU.mem_write_sp (s : CPU) (a d : Nat) :
    (s.mem_write a d).stack_pointer = s.stack_pointer := rfl

/-! ### Status-flag lemmas -/

set_option maxRecDepth 100000

/-- An `if cond then insert else remove` in the source is bitflags
`set(flag, cond)`. -/
theorem ite_insert_remove (c : Prop) [Decidable c] (st f : Nat) :
    (if c then CpuFlags.insert st f else CpuFlags.remove st f) =
      CpuFlags.setb st f (decide c) := by
  by_cases h : c <;> simp [CpuFlags.setb, h]

set_option maxHeartbeats 1000000 in
/-- Reading each flag back after the carry/overflow/zero/negative update
pipeline of `add_to_register_a` followed by
`update_zero_and_negative_flags`. -/
theorem contains_after_cozn :
    ∀ st < 256, ∀ c o z n : Bool,
      (CpuFlags.contains
        (CpuFlags.setb (CpuFlags.setb (CpuFlags.setb
          (CpuFlags.setb st CpuFlags.CARRY c) CpuFlags.OVERFLOW o)
          CpuFlags.ZERO z) CpuFlags.NEGATIVE n) CpuFlags.CARRY = c) ∧
      (CpuFlags.contains
        (CpuFlags.setb (CpuFlags.setb (CpuFlags.setb
          (CpuFlags.setb st CpuFlags.CARRY c) CpuFlags.OVERFLOW o)
          CpuFlags.ZERO z) CpuFlags.NEGATIVE n) CpuFlags.OVERFLOW = o) ∧
      (CpuFlags.contains
        (CpuFlags.setb (CpuFlags.setb (CpuFlags.setb
          (CpuFlags.setb st CpuFlags.CARRY c) CpuFlags.OVERFLOW o)
          CpuFlags.ZERO z) CpuFlags.NEGATIVE n) CpuFlags.ZERO = z) ∧
      (CpuFlags.contains
        (CpuFlags.setb (CpuFlags.setb (CpuFlags.setb
          (CpuFlags.setb st CpuFlags.CARRY c) CpuFlags.OVERFLOW o)
          CpuFlags.ZERO z) CpuFlags.NEGATIVE n) CpuFlags.NEGATIVE = n) := by
  decide

set_option maxHeartbeats 1000000 in
/-- Reading the zero and negative flags back after
`update_zero_and_negative_flags`, and carry preservation through it. -/
theorem contains_after_zn :
    ∀ st < 256, ∀ z n : Bool,
      (CpuFlags.contains
        (CpuFlags.setb (CpuFlags.setb st CpuFlags.ZERO z) CpuFlags.NEGATIVE n)
        CpuFlags.ZERO = z) ∧
      (CpuFlags.contains
        (CpuFlags.setb (CpuFlags.setb st CpuFlags.ZERO z) CpuFlags.NEGATIVE n)
        CpuFlags.NEGATIVE = n) ∧
      (CpuFlags.contains
        (CpuFlags.setb (CpuFlags.setb st CpuFlags.ZERO z) CpuFlags.NEGATIVE n)
        CpuFlags.CARRY = CpuFlags.contains st CpuFlags.CARRY) := by
  decide

set_option maxHeartbeats 1000000 in
/-- Reading the zero and negative flags back after the `bit` pipeline
(zero, then negative, then overflow). -/
theorem contains_after_znv :
    ∀ st < 256, ∀ z n v : Bool,
      (CpuFlags.contains
        (CpuFlags.setb (CpuFlags.setb (CpuFlags.setb st CpuFlags.ZERO z)
          CpuFlags.NEGATIVE n) CpuFlags.OVERFLOW v) CpuFlags.ZERO = z) ∧
      (CpuFlags.contains
        (CpuFlags.setb (CpuFlags.setb (CpuFlags.setb st CpuFlags.ZERO z)
          CpuFlags.NEGATIVE n) CpuFlags.OVERFLOW v) CpuFlags.NEGATIVE = n) := by
  decide

/-- The PHP-then-PLP status byte computation: force break low and break2
high on the original status. -/
theorem php_plp_status :
    ∀ st < 256,
      CpuFlags.insert (CpuFlags.remove
        (((CpuFlags.insert (CpuFlags.insert st CpuFlags.BREAK) CpuFlags.BREAK2) % 256) % 256)
        CpuFlags.BREAK) CpuFlags.BREAK2 =
      CpuFlags.insert (CpuFlags.remove st CpuFlags.BREAK) CpuFlags.BREAK2 := by
  decide

/-- Inserting a flag into a byte stays a byte, and the carry bit reads
back set. -/
theorem insert_carry_facts :
    ∀ st < 256, CpuFlags.insert st CpuFlags.CARRY < 256 ∧
      CpuFlags.contains (CpuFlags.insert st CpuFlags.CARRY) CpuFlags.CARRY = true := by
  decide

end Nes

namespace Nes

/-! ### Claim C1: ADC arithmetic and flags -/

/-- C1: every ADC execution calls `add_to_register_a` with the operand
byte.  For operand byte `b`, old accumulator `a` and carry-in `c`: the
new accumulator is `(a + b + c) % 256`, carry is set iff
`a + b + c > 255`, overflow is set iff
`((b XOR result) AND (result XOR a) AND 0x80) != 0` for
`result = (a + b + c) % 256`, and zero/negative come from the result
byte. -/
theorem adc_spec (s : CPU) (b : Nat) (ha : s.register_a < 256) (hb : b < 256)
    (hst : s.status < 256) :
    (s.add_to_register_a b).register_a =
      (s.register_a + b +
        if CpuFlags.contains s.status CpuFlags.CARRY then 1 else 0) % 256 ∧
    CpuFlags.contains (s.add_to_register_a b).status CpuFlags.CARRY =
      decide ((s.register_a + b +
        if CpuFlags.contains s.status CpuFlags.CARRY then 1 else 0) > 255) ∧
    CpuFlags.contains (s.add_to_register_a b).status CpuFlags.OVERFLOW =
      decide ((b ^^^ (s.register_a + b +
          if CpuFlags.contains s.status CpuFlags.CARRY then 1 else 0) % 256) &&&
        ((s.register_a + b +
          if CpuFlags.contains s.status CpuFlags.CARRY then 1 else 0) % 256 ^^^
          s.register_a) &&& 0x80 ≠ 0) ∧
    CpuFlags.contains (s.add_to_register_a b).status CpuFlags.ZERO =
      decide ((s.register_a + b +
        if CpuFlags.contains s.status CpuFlags.CARRY then 1 else 0) % 256 = 0) ∧
    CpuFlags.contains (s.add_to_register_a b).status CpuFlags.NEGATIVE =
      decide ((s.register_a + b +
        if CpuFlags.contains s.status CpuFlags.CARRY then 1 else 0) % 256 &&&
        0b10000000 ≠ 0) := by
  have key := contains_after_cozn s.status hst
    (decide ((s.register_a + b +
      if CpuFlags.contains s.status CpuFlags.CARRY then 1 else 0) > 0xff))
    (decide ((b ^^^ (s.register_a + b +
        if CpuFlags.contains s.status CpuFlags.CARRY then 1 else 0) % 256) &&&
      ((s.register_a + b +
        if CpuFlags.contains s.status CpuFlags.CARRY then 1 else 0) % 256 ^^^
        s.register_a) &&& 0x80 ≠ 0))
    (decide ((s.register_a + b +
      if CpuFlags.contains s.status CpuFlags.CARRY then 1 else 0) % 256 = 0))
    (decide ((s.register_a + b +
      if CpuFlags.contains s.status CpuFlags.CARRY then 1 else 0) % 256 &&&
      0b10000000 ≠ 0))
  refine ⟨rfl, ?_, ?_, ?_, ?_⟩ <;>
    simp only [CPU.add_to_register_a, CPU.set_register_a,
      CPU.update_zero_and_negative_flags, ite_insert_remove] <;>
    [exact key.1; exact key.2.1; exact key.2.2.1; exact key.2.2.2]

/-- Concrete CPU state for the C1 witness. -/
def cpuC1 : CPU := ⟨0x50, 0, 0, 0b100100, 0, 0xFD, fun _ => 0⟩

/-- C1 witness: `0x50 + 0x50` with carry clear gives `0xA0`, no carry,
signed overflow, not zero, negative. -/
theorem adc_spec_witness :
    cpuC1.register_a < 256 ∧ (0x50 : Nat) < 256 ∧ cpuC1.status < 256 ∧
    ((cpuC1.add_to_register_a 0x50).register_a = 0xA0 ∧
     CpuFlags.contains (cpuC1.add_to_register_a 0x50).status CpuFlags.CARRY = false ∧
     CpuFlags.contains (cpuC1.add_to_register_a 0x50).status CpuFlags.OVERFLOW = true ∧
     CpuFlags.contains (cpuC1.add_to_register_a 0x50).status CpuFlags.ZERO = false ∧
     CpuFlags.contains (cpuC1.add_to_register_a 0x50).status CpuFlags.NEGATIVE = true) :=
  ⟨by decide, by decide, by decide,
   adc_spec cpuC1 0x50 (by decide) (by decide) (by decide)⟩

/-! ### Claim C2: the zero/negative flag rule, and the BIT exception -/

/-- C2 (amended): every instruction that updates flags through
`update_zero_and_negative_flags` sets the zero flag iff its result byte
is 0 and the negative flag iff bit 7 of the result byte is set; BIT,
however, takes its zero flag from `A AND operand` and its negative flag
from bit 7 of the operand byte itself (not of a result byte). -/
theorem zn_rule_and_bit :
    (∀ (s : CPU) (r : Nat), s.status < 256 →
      CpuFlags.contains (s.update_zero_and_negative_flags r).status CpuFlags.ZERO =
        decide (r = 0) ∧
      CpuFlags.contains (s.update_zero_and_negative_flags r).status CpuFlags.NEGATIVE =
        decide (r &&& 0b10000000 ≠ 0)) ∧
    (∀ (s : CPU) (mode : AddressingMode) (addr : Nat),
      s.get_operand_address mode = some addr → s.status < 256 →
      (s.bit mode).map (fun s1 =>
          (CpuFlags.contains s1.status CpuFlags.ZERO,
           CpuFlags.contains s1.status CpuFlags.NEGATIVE)) =
        some (decide (s.register_a &&& s.mem_read addr = 0),
              decide (s.mem_read addr &&& 0b10000000 > 0))) := by
  constructor
  · intro s r hst
    have key := contains_after_zn s.status hst (decide (r = 0))
      (decide (r &&& 0b10000000 ≠ 0))
    constructor <;>
      simp only [CPU.update_zero_and_negative_flags, ite_insert_remove] <;>
      [exact key.1; exact key.2.1]
  · intro s mode addr hres hst
    have key := contains_after_znv s.status hst
      (decide (s.register_a &&& s.mem_read addr = 0))
      (decide (s.mem_read addr &&& 0b10000000 > 0))
      (decide (s.mem_read addr &&& 0b01000000 > 0))
    rw [CPU.bit, hres]
    simp only [Option.map_some', Option.some.injEq, Prod.mk.injEq,
      ite_insert_remove]
    exact ⟨key.1, key.2⟩

/-- Concrete CPU state for the C2 counterexample: about to execute
`BIT $10` (opcode 0x24) with accumulator 0 and memory cell 0x10 holding
0x80. -/
def cpuC2 : CPU :=
  ⟨0, 0, 0, 0b100100, 0, 0xFD,
   fun a => if a = 0 then 0x24 else if a = 1 then 0x10 else
     if a = 0x10 then 0x80 else 0⟩

/-- Same state with the program counter already past the opcode byte,
for exercising the `bit` helper directly. -/
def cpuC2b : CPU :=
  ⟨0, 0, 0, 0b100100, 1, 0xFD,
   fun a => if a = 0 then 0x24 else if a = 1 then 0x10 else
     if a = 0x10 then 0x80 else 0⟩

/-- C2 counterexample: after a full step executing BIT with accumulator 0
and operand byte 0x80, the zero flag and the negative flag are both set.
Under the claim the zero flag forces the result byte to be 0, whose bit 7
is 0, so the negative flag would have to be clear. -/
theorem zn_rule_counterexample :
    ((step cpuC2).map fun o =>
      match o with
      | StepOut.next s1 =>
          (CpuFlags.contains s1.status CpuFlags.ZERO,
           CpuFlags.contains s1.status CpuFlags.NEGATIVE)
      | StepOut.halt s1 =>
          (CpuFlags.contains s1.status CpuFlags.ZERO,
           CpuFlags.contains s1.status CpuFlags.NEGATIVE)) =
      some (true, true) := by
  decide

/-- C2 witness: the zero/negative rule at result byte 5, and the BIT
behaviour on the counterexample state. -/
theorem zn_rule_and_bit_witness :
    (CpuFlags.contains (cpuC2b.update_zero_and_negative_flags 5).status
        CpuFlags.ZERO = false ∧
     CpuFlags.contains (cpuC2b.update_zero_and_negative_flags 5).status
        CpuFlags.NEGATIVE = false) ∧
    ((cpuC2b.bit AddressingMode.ZeroPage).map (fun s1 =>
        (CpuFlags.contains s1.status CpuFlags.ZERO,
         CpuFlags.contains s1.status CpuFlags.NEGATIVE)) =
      some (true, true)) :=
  ⟨zn_rule_and_bit.1 cpuC2b 5 (by decide),
   zn_rule_and_bit.2 cpuC2b AddressingMode.ZeroPage 0x10 (by decide) (by decide)⟩

/-! ### Claim C6: PHP then PLP -/

/-- C6: pushing the status with PHP and popping it with PLP restores the
original status except that break is forced clear and break2 forced set;
the stack pointer returns to its original value. -/
theorem php_plp_roundtrip (s : CPU) (hst : s.status < 256)
    (hsp : s.stack_pointer < 256) :
    s.php.plp.status =
      CpuFlags.insert (CpuFlags.remove s.status CpuFlags.BREAK) CpuFlags.BREAK2 ∧
    s.php.plp.stack_pointer = s.stack_pointer := by
  have hsp2 : ((s.stack_pointer + 255) % 256 + 1) % 256 = s.stack_pointer := by
    omega
  constructor
  · simp only [CPU.php, CPU.plp, CPU.stack_push, CPU.stack_pop, CPU.mem_read,
      CPU.mem_write, STACK, hsp2]
    exact php_plp_status s.status hst
  · simp only [CPU.php, CPU.plp, CPU.stack_push, CPU.stack_pop, CPU.mem_read,
      CPU.mem_write, STACK, hsp2]

/-- Concrete CPU state for the C6 witness. -/
def cpuC6 : CPU := ⟨0, 0, 0, 0b11010101, 0, 0xFD, fun _ => 0⟩

/-- C6 witness: status byte 0xD5 comes back as 0xE5 (break cleared,
break2 set), stack pointer restored. -/
theorem php_plp_roundtrip_witness :
    cpuC6.status < 256 ∧ cpuC6.stack_pointer < 256 ∧
    (cpuC6.php.plp.status = 0xE5 ∧ cpuC6.php.plp.stack_pointer = 0xFD) :=
  ⟨by decide, by decide, php_plp_roundtrip cpuC6 (by decide) (by decide)⟩

/-! ### Claim C7: wrapping of program counter and stack pointer -/

/-- Iterated `stack_push` of the same byte. -/
def pushN (s : CPU) (d : Nat) : Nat → CPU
  | 0 => s
  | n + 1 => pushN (s.stack_push d) d n

/-- The stack pointer after `n` pushes. -/
theorem pushN_sp (n : Nat) : ∀ (s : CPU) (d : Nat), s.stack_pointer < 256 →
    (pushN s d n).stack_pointer = (s.stack_pointer + 255 * n) % 256 := by
  induction n with
  | zero => intro s d h; simp [pushN, Nat.mod_eq_of_lt h]
  | succ n ih =>
      intro s d h
      have h1 : (s.stack_push d).stack_pointer = (s.stack_pointer + 255) % 256 := rfl
      have h2 : (s.stack_push d).stack_pointer < 256 := by rw [h1]; omega
      calc (pushN s d (n + 1)).stack_pointer
          = (pushN (s.stack_push d) d n).stack_pointer := rfl
        _ = ((s.stack_push d).stack_pointer + 255 * n) % 256 := ih _ d h2
        _ = (s.stack_pointer + 255 * (n + 1)) % 256 := by rw [h1]; omega

/-- C7: stack-pointer arithmetic wraps mod 2^8 (`stack_push` decrements
it wrapping); pushing 256 times from 0xFD returns it to 0xFD; and an
instruction step that fetches an opcode (here NOP) at program counter
0xFFFF completes, the program counter wrapping mod 2^16 to 0. -/
theorem pc_sp_wrapping :
    (∀ (s : CPU) (d : Nat),
      (s.stack_push d).stack_pointer = (s.stack_pointer + 255) % 256) ∧
    (∀ (s : CPU) (d : Nat), s.stack_pointer = 0xFD →
      (pushN s d 256).stack_pointer = 0xFD) ∧
    (∀ s : CPU, s.program_counter = 0xFFFF → s.mem_read 0xFFFF = 0xEA →
      step s = some (StepOut.next { s with program_counter := 0 })) := by
  refine ⟨fun s d => rfl, ?_, ?_⟩
  · intro s d hsp
    rw [pushN_sp 256 s d (by omega)]
    omega
  · intro s hpc hmem
    show dispatchStep (s.mem_read s.program_counter)
      { s with program_counter := (s.program_counter + 1) % 65536 } = _
    rw [hpc, hmem]
    rfl

/-- Concrete CPU state for the C7 witness: NOP everywhere, program
counter at the top of the address space. -/
def cpuC7 : CPU := ⟨0, 0, 0, 0b100100, 0xFFFF, 0xFD, fun _ => 0xEA⟩

/-- C7 witness: one push moves 0xFD to 0xFC, 256 pushes return to 0xFD,
and the step at 0xFFFF completes with the program counter wrapped to 0. -/
theorem pc_sp_wrapping_witness :
    ((cpuC7.stack_push 0).stack_pointer = 0xFC) ∧
    ((pushN cpuC7 0 256).stack_pointer = 0xFD) ∧
    (step cpuC7 = some (StepOut.next { cpuC7 with program_counter := 0 })) :=
  ⟨pc_sp_wrapping.1 cpuC7 0,
   pc_sp_wrapping.2.1 cpuC7 0 rfl,
   pc_sp_wrapping.2.2 cpuC7 rfl rfl⟩

end Nes

namespace Nes

/-! ### Projection helpers -/

@[simp]
theorem CPU.mem_write_mem (s : CPU) (a d x : Nat) :
    (s.mem_write a d).mem x = if x = a % 65536 then d % 256 else s.mem x := rfl

@[simp]
theorem CPU.update_zn_mem_read (s : CPU) (r a : Nat) :
    (s.update_zero_and_negative_flags r).mem_read a = s.mem_read a := rfl

@[simp]
theorem CPU.update_zn_mem (s : CPU) (r : Nat) :
    (s.update_zero_and_negative_flags r).mem = s.mem := rfl

@[simp]
theorem CPU.update_zn_register_a (s : CPU) (r : Nat) :
    (s.update_zero_and_negative_flags r).register_a = s.register_a := rfl

@[simp]
theorem CPU.update_zn_sp (s : CPU) (r : Nat) :
    (s.update_zero_and_negative_flags r).stack_pointer = s.stack_pointer := rfl

@[simp]
theorem CPU.update_zn_pc (s : CPU) (r : Nat) :
    (s.update_zero_and_negative_flags r).program_counter = s.program_counter := rfl

/-- The status after `update_zero_and_negative_flags`, in `setb` form. -/
theorem CPU.update_zn_status (s : CPU) (r : Nat) :
    (s.update_zero_and_negative_flags r).status =
      CpuFlags.setb (CpuFlags.setb s.status CpuFlags.ZERO (decide (r = 0)))
        CpuFlags.NEGATIVE (decide (r &&& 0b10000000 ≠ 0)) := by
  simp only [CPU.update_zero_and_negative_flags, ite_insert_remove]

/-! ### Claim C4: JMP indirect page-boundary quirk -/

/-- C4: executing JMP indirect (opcode 0x6C) with 16-bit operand pointer
`p`: if the low byte of `p` is 0xFF the program counter gets a target
whose low byte is read from `p` and whose high byte is read from
`p AND 0xFF00` (start of the same page); otherwise it gets the
little-endian word read at `p` and `p + 1`. -/
theorem jmp_indirect_quirk (s : CPU) (mode : AddressingMode) :
    ((s.mem_read_u16 s.program_counter) &&& 0x00FF = 0x00FF →
      ∃ s1, execInstr 0x6c mode s = some (ExecOut.ran s1) ∧
        s1.program_counter &&& 255 =
          s.mem_read (s.mem_read_u16 s.program_counter) ∧
        s1.program_counter >>> 8 =
          s.mem_read ((s.mem_read_u16 s.program_counter) &&& 0xFF00)) ∧
    ((s.mem_read_u16 s.program_counter) &&& 0x00FF ≠ 0x00FF →
      ∃ s1, execInstr 0x6c mode s = some (ExecOut.ran s1) ∧
        s1.program_counter =
          s.mem_read_u16 (s.mem_read_u16 s.program_counter)) := by
  constructor
  · intro hp
    refine ⟨s.jmpIndirectArm, rfl, ?_, ?_⟩ <;>
      rw [show s.jmpIndirectArm.program_counter =
            (s.mem_read ((s.mem_read_u16 s.program_counter) &&& 0xFF00)) <<< 8 |||
              s.mem_read (s.mem_read_u16 s.program_counter) by
            simp only [CPU.jmpIndirectArm]; rw [if_pos hp]] <;>
      rw [lor_byte _ (s.mem_read_lt _) _ (s.mem_read_lt _)]
    · rw [and_255]
      have := s.mem_read_lt (s.mem_read_u16 s.program_counter)
      omega
    · rw [shr_8]
      have h1 := s.mem_read_lt (s.mem_read_u16 s.program_counter)
      have h2 := s.mem_read_lt ((s.mem_read_u16 s.program_counter) &&& 0xFF00)
      omega
  · intro hp
    refine ⟨s.jmpIndirectArm, rfl, ?_⟩
    simp only [CPU.jmpIndirectArm]
    rw [if_neg hp]

/-- Concrete state for the C4 witness, quirk branch: JMP (0x02FF) with
the target low byte 0x34 at 0x02FF and high byte 0x12 at 0x0200. -/
def cpuC4a : CPU :=
  ⟨0, 0, 0, 0b100100, 0, 0xFD,
   fun a => if a = 0 then 0xFF else if a = 1 then 0x02 else
     if a = 0x2FF then 0x34 else if a = 0x200 then 0x12 else 0⟩

/-- Concrete state for the C4 witness, normal branch: JMP (0x0010) with
the word 0x5678 stored at 0x0010/0x0011. -/
def cpuC4b : CPU :=
  ⟨0, 0, 0, 0b100100, 0, 0xFD,
   fun a => if a = 0 then 0x10 else if a = 1 then 0 else
     if a = 0x10 then 0x78 else if a = 0x11 then 0x56 else 0⟩

/-- C4 witness: both branches at explicit pointers 0x02FF and 0x0010. -/
theorem jmp_indirect_quirk_witness :
    (∃ s1, execInstr 0x6c AddressingMode.NoneAddressing cpuC4a =
        some (ExecOut.ran s1) ∧
      s1.program_counter &&& 255 = 0x34 ∧ s1.program_counter >>> 8 = 0x12) ∧
    (∃ s1, execInstr 0x6c AddressingMode.NoneAddressing cpuC4b =
        some (ExecOut.ran s1) ∧
      s1.program_counter = 0x5678) :=
  ⟨(jmp_indirect_quirk cpuC4a AddressingMode.NoneAddressing).1 (by decide),
   (jmp_indirect_quirk cpuC4b AddressingMode.NoneAddressing).2 (by decide)⟩

/-! ### Claim C10: unofficial DCP opcodes -/

/-- C10: for each DCP opcode, the operand byte is decremented (wrapping)
and written back, carry is set when the decremented value is at most the
accumulator and left unchanged otherwise, zero and negative are computed
from `(accumulator - decremented) mod 256`, and the accumulator is
unchanged. -/
theorem dcp_spec (code : Nat)
    (hcode : code = 0xc7 ∨ code = 0xd7 ∨ code = 0xcf ∨ code = 0xdf ∨
      code = 0xdb ∨ code = 0xd3 ∨ code = 0xc3)
    (mode : AddressingMode) (s : CPU) (addr : Nat)
    (hres : s.get_operand_address mode = some addr)
    (hst : s.status < 256) :
    ∃ s1, execInstr code mode s = some (ExecOut.ran s1) ∧
      s1.mem_read addr = (s.mem_read addr + 255) % 256 ∧
      s1.register_a = s.register_a ∧
      CpuFlags.contains s1.status CpuFlags.CARRY =
        (decide ((s.mem_read addr + 255) % 256 ≤ s.register_a) ||
          CpuFlags.contains s.status CpuFlags.CARRY) ∧
      CpuFlags.contains s1.status CpuFlags.ZERO =
        decide ((s.register_a + 256 - (s.mem_read addr + 255) % 256) % 256 = 0) ∧
      CpuFlags.contains s1.status CpuFlags.NEGATIVE =
        decide ((s.register_a + 256 - (s.mem_read addr + 255) % 256) % 256 &&&
          0b10000000 ≠ 0) := by
  have harm : execInstr code mode s = (s.dcpArm mode).map ExecOut.ran := by
    rcases hcode with rfl | rfl | rfl | rfl | rfl | rfl | rfl <;> rfl
  rw [harm, CPU.dcpArm, hres]
  simp only [Option.map_some', CPU.mem_write_register_a]
  by_cases hcar : (s.mem_read addr + 255) % 256 ≤ s.register_a
  · rw [if_pos hcar]
    refine ⟨_, rfl, ?_, ?_, ?_, ?_, ?_⟩
    · simp only [CPU.mem_read, CPU.update_zn_mem, CPU.mem_write_mem]
      simp
    · simp only [CPU.update_zn_register_a, CPU.mem_write_register_a]
    · simp only [CPU.update_zn_status, CPU.mem_write_register_a,
        CPU.mem_write_status]
      rw [(contains_after_zn (CpuFlags.insert s.status CpuFlags.CARRY)
        (insert_carry_facts s.status hst).1 _ _).2.2]
      rw [(insert_carry_facts s.status hst).2]
      simp [hcar]
    · simp only [CPU.update_zn_status, CPU.mem_write_register_a,
        CPU.mem_write_status]
      exact (contains_after_zn (CpuFlags.insert s.status CpuFlags.CARRY)
        (insert_carry_facts s.status hst).1 _ _).1
    · simp only [CPU.update_zn_status, CPU.mem_write_register_a,
        CPU.mem_write_status]
      exact (contains_after_zn (CpuFlags.insert s.status CpuFlags.CARRY)
        (insert_carry_facts s.status hst).1 _ _).2.1
  · rw [if_neg hcar]
    refine ⟨_, rfl, ?_, ?_, ?_, ?_, ?_⟩
    · simp only [CPU.mem_read, CPU.update_zn_mem, CPU.mem_write_mem]
      simp
    · simp only [CPU.update_zn_register_a, CPU.mem_write_register_a]
    · simp only [CPU.update_zn_status, CPU.mem_write_register_a,
        CPU.mem_write_status]
      rw [(contains_after_zn s.status hst _ _).2.2]
      simp [hcar]
    · simp only [CPU.update_zn_status, CPU.mem_write_register_a,
        CPU.mem_write_status]
      exact (contains_after_zn s.status hst _ _).1
    · simp only [CPU.update_zn_status, CPU.mem_write_register_a,
        CPU.mem_write_status]
      exact (contains_after_zn s.status hst _ _).2.1

/-- Concrete state for the C10 witness: DCP zero-page at operand 0x10,
memory cell 0x10 holds 5, accumulator 4. -/
def cpuC10 : CPU :=
  ⟨4, 0, 0, 0b100100, 1, 0xFD,
   fun a => if a = 0 then 0xc7 else if a = 1 then 0x10 else
     if a = 0x10 then 5 else 0⟩

/-- C10 witness: decrementing 5 gives 4 which equals the accumulator, so
carry is set, zero is set (4 - 4 = 0), negative clear, accumulator
unchanged. -/
theorem dcp_spec_witness :
    ∃ s1, execInstr 0xc7 AddressingMode.ZeroPage cpuC10 =
        some (ExecOut.ran s1) ∧
      s1.mem_read 0x10 = 4 ∧
      s1.register_a = 4 ∧
      CpuFlags.contains s1.status CpuFlags.CARRY = true ∧
      CpuFlags.contains s1.status CpuFlags.ZERO = true ∧
      CpuFlags.contains s1.status CpuFlags.NEGATIVE = false :=
  dcp_spec 0xc7 (Or.inl rfl) AddressingMode.ZeroPage cpuC10 0x10
    (by decide) (by decide)

end Nes

namespace Nes

/-! ### Claim C8: fatal error conditions abort the run -/

set_option maxHeartbeats 2000000 in
/-- C8: an opcode byte with no table entry aborts the post-fetch step;
resolving the "none" addressing mode aborts; a bus write anywhere in ROM
space 0x8000-0xFFFF aborts; a bus read of a write-only picture-unit
register (0x2000/0x2001/0x2003/0x2005/0x2006) aborts; and a bus write to
the read-only status register 0x2002 aborts.  Aborting is `none`: no
continuation state is produced. -/
theorem fatal_aborts :
    (∀ (code : Nat) (s : CPU), OPCODES_MAP code = none →
      dispatchStep code s = none) ∧
    (∀ (s : CPU) (a : Nat),
      s.get_absolute_address AddressingMode.NoneAddressing a = none) ∧
    (∀ (P : Type) (ops : PpuOps P) (b : Bus P) (a d : Nat),
      0x8000 ≤ a → a ≤ 0xFFFF → Bus.mem_write ops b a d = none) ∧
    (∀ (P : Type) (ops : PpuOps P) (b : Bus P) (a : Nat),
      a = 0x2000 ∨ a = 0x2001 ∨ a = 0x2003 ∨ a = 0x2005 ∨ a = 0x2006 →
      Bus.mem_read ops b a = none) ∧
    (∀ (P : Type) (ops : PpuOps P) (b : Bus P) (d : Nat),
      Bus.mem_write ops b 0x2002 d = none) := by
  refine ⟨?_, fun s a => rfl, ?_, ?_, ?_⟩
  · intro code s h
    simp only [dispatchStep, h]
  · intro P ops b a d h1 h2
    rw [Bus.mem_write.eq_def]
    split_ifs <;> first | rfl | (exfalso; omega)
  · intro P ops b a h
    rw [Bus.mem_read.eq_def]
    split_ifs <;> first | rfl | (exfalso; omega)
  · intro P ops b d
    rw [Bus.mem_write.eq_def]
    norm_num

/-- Trivial picture-unit instance for the bus witnesses. -/
def unitPpuOps : PpuOps Unit :=
  ⟨fun _ => (0, ()), fun _ => (0, ()), fun _ => (0, ()), fun _ _ => (),
   fun _ _ => (), fun _ _ => (), fun _ _ => (), fun _ _ => (),
   fun _ _ => (), fun _ _ => ()⟩

/-- Concrete bus for the bus witnesses. -/
def bus0 : Bus Unit := ⟨fun _ => 0, [], (), 0⟩

/-- Concrete CPU for the C8 witness. -/
def cpuC8 : CPU := ⟨0, 0, 0, 0b100100, 0, 0xFD, fun _ => 0⟩

/-- C8 witness: value 256 has no opcode-table entry and the dispatch on
it aborts; the remaining conditions at explicit addresses. -/
theorem fatal_aborts_witness :
    OPCODES_MAP 256 = none ∧
    dispatchStep 256 cpuC8 = none ∧
    cpuC8.get_absolute_address AddressingMode.NoneAddressing 0 = none ∧
    Bus.mem_write unitPpuOps bus0 0x8000 1 = none ∧
    Bus.mem_read unitPpuOps bus0 0x2000 = none ∧
    Bus.mem_write unitPpuOps bus0 0x2002 1 = none :=
  ⟨by decide,
   fatal_aborts.1 256 cpuC8 (by decide),
   fatal_aborts.2.1 cpuC8 0,
   fatal_aborts.2.2.1 Unit unitPpuOps bus0 0x8000 1 (by omega) (by omega),
   fatal_aborts.2.2.2.1 Unit unitPpuOps bus0 0x2000 (Or.inl rfl),
   fatal_aborts.2.2.2.2 Unit unitPpuOps bus0 1⟩

/-! ### Claim C9: unmapped bus addresses -/

set_option maxHeartbeats 2000000 in
/-- C9 (amended): for every 16-bit address outside RAM (0x0000-0x1FFF),
outside the picture-unit window (0x2000-0x3FFF), outside ROM
(0x8000-0xFFFF), and distinct from 0x4014 (whose read aborts, see the
counterexample): a bus read returns 0 with the bus unchanged, reading
twice returns 0 both times, and a write leaves the bus unchanged. -/
theorem unmapped_bus_access (P : Type) (ops : PpuOps P) (b : Bus P)
    (a d : Nat) (h1 : ¬ a ≤ 0x1FFF) (h2 : ¬ (0x2000 ≤ a ∧ a ≤ 0x3FFF))
    (h3 : ¬ (0x8000 ≤ a ∧ a ≤ 0xFFFF)) (h4 : a ≠ 0x4014) :
    Bus.mem_read ops b a = some (0, b) ∧
    (Bus.mem_read ops b a).bind (fun vb => Bus.mem_read ops vb.2 a) =
      some (0, b) ∧
    Bus.mem_write ops b a d = some b := by
  have hread : Bus.mem_read ops b a = some (0, b) := by
    rw [Bus.mem_read.eq_def]
    split_ifs <;> first | rfl | (exfalso; omega)
  refine ⟨hread, ?_, ?_⟩
  · rw [hread]
    simpa using hread
  · rw [Bus.mem_write.eq_def]
    split_ifs <;> first | rfl | (exfalso; omega)

/-- C9 counterexample: the address 0x4014 lies outside RAM, outside the
picture-unit window 0x2000-0x3FFF and outside ROM, yet a bus read of it
aborts (the source panics on it as a write-only register) instead of
returning 0. -/
theorem unmapped_bus_counterexample :
    Bus.mem_read unitPpuOps bus0 0x4014 = none := by
  rw [Bus.mem_read.eq_def]
  norm_num

/-- C9 witness: the amended statement at the explicit unmapped address
0x4020. -/
theorem unmapped_bus_access_witness :
    Bus.mem_read unitPpuOps bus0 0x4020 = some (0, bus0) ∧
    (Bus.mem_read unitPpuOps bus0 0x4020).bind
      (fun vb => Bus.mem_read unitPpuOps vb.2 0x4020) = some (0, bus0) ∧
    Bus.mem_write unitPpuOps bus0 0x4020 7 = some bus0 :=
  unmapped_bus_access Unit unitPpuOps bus0 0x4020 7 (by omega) (by omega)
    (by omega) (by omega)

/-! ### Claim C3: branch instructions (code bug at displacement 0xFF) -/

/-- Concrete state for the C3 failing input: BNE (0xD0) at address 0
with displacement byte 0xFF and the zero flag clear (branch taken). -/
def cpuC3 : CPU :=
  ⟨0, 0, 0, 0b100100, 0, 0xFD,
   fun a => if a = 0 then 0xD0 else if a = 1 then 0xFF else 0⟩

/-- C3, evaluation at the failing input: the branch body itself computes
the target 1 (the address after the operand byte plus the sign-extended
displacement −1), but the full step ends with program counter 2, because
the step-5 advance `program_counter += len − 1` is applied again: the
taken branch landed exactly on the post-fetch program counter value, so
the "did the instruction modify the program counter" value-comparison
fails to detect it.  The claim (and the spec) require 1. -/
theorem branch_step5_bug_eval :
    (CPU.branch { cpuC3 with program_counter := 1 } true).program_counter = 1 ∧
    ((step cpuC3).map fun o =>
      match o with
      | StepOut.next s1 => s1.program_counter
      | StepOut.halt s1 => s1.program_counter) = some 2 := by
  constructor
  · decide
  · decide

end Nes

namespace Nes

/-! ### Stack and subroutine-arm helper lemmas (for claim C5) -/

@[simp]
theorem CPU.stack_push_sp (s : CPU) (d : Nat) :
    (s.stack_push d).stack_pointer = (s.stack_pointer + 255) % 256 := rfl

@[simp]
theorem CPU.stack_push_pc (s : CPU) (d : Nat) :
    (s.stack_push d).program_counter = s.program_counter := rfl

/-- Reading back the pushed cell. -/
theorem CPU.stack_push_mem_read_eq (s : CPU) (d x : Nat)
    (hx : x % 65536 = (0x100 + s.stack_pointer) % 65536) :
    (s.stack_push d).mem_read x = d % 256 :=
  CPU.mem_read_write_eq s (0x100 + s.stack_pointer) d x hx

/-- Reading an unrelated cell after a push. -/
theorem CPU.stack_push_mem_read_ne (s : CPU) (d x : Nat)
    (hx : x % 65536 ≠ (0x100 + s.stack_pointer) % 65536) :
    (s.stack_push d).mem_read x = s.mem_read x :=
  CPU.mem_read_write_ne s (0x100 + s.stack_pointer) d x hx

/-- The stack pointer after a 16-bit push drops by two, wrapping. -/
theorem CPU.stack_push_u16_sp (s : CPU) (v : Nat) :
    (s.stack_push_u16 v).stack_pointer = (s.stack_pointer + 254) % 256 := by
  show ((s.stack_pointer + 255) % 256 + 255) % 256 = (s.stack_pointer + 254) % 256
  omega

@[simp]
theorem CPU.stack_push_u16_pc (s : CPU) (v : Nat) :
    (s.stack_push_u16 v).program_counter = s.program_counter := by
  simp only [CPU.stack_push_u16, CPU.stack_push, CPU.mem_write]

/-- The high byte of a 16-bit push lands at `0x100 + sp`. -/
theorem CPU.stack_push_u16_mem_read_hi (s : CPU) (v : Nat)
    (hsp : s.stack_pointer < 256) :
    (s.stack_push_u16 v).mem_read (0x100 + s.stack_pointer) = (v >>> 8) % 256 := by
  show ((s.stack_push ((v >>> 8) % 256)).stack_push (v &&& 0x00FF)).mem_read
    (0x100 + s.stack_pointer) = (v >>> 8) % 256
  rw [CPU.stack_push_mem_read_ne _ _ _
    (by simp only [CPU.stack_push_sp]; omega)]
  rw [CPU.stack_push_mem_read_eq _ _ _ rfl]
  omega

/-- The low byte of a 16-bit push lands at `0x100 + (sp - 1) mod 256`. -/
theorem CPU.stack_push_u16_mem_read_lo (s : CPU) (v : Nat)
    (hsp : s.stack_pointer < 256) :
    (s.stack_push_u16 v).mem_read (0x100 + (s.stack_pointer + 255) % 256) =
      v &&& 255 := by
  show ((s.stack_push ((v >>> 8) % 256)).stack_push (v &&& 0x00FF)).mem_read
    (0x100 + (s.stack_pointer + 255) % 256) = v &&& 255
  rw [CPU.stack_push_mem_read_eq _ _ _ (by simp only [CPU.stack_push_sp])]
  rw [and_255]
  omega

/-- Cells away from the two pushed bytes are untouched by a 16-bit push. -/
theorem CPU.stack_push_u16_mem_read_other (s : CPU) (v x : Nat)
    (hx1 : x % 65536 ≠ (0x100 + s.stack_pointer) % 65536)
    (hx2 : x % 65536 ≠ (0x100 + (s.stack_pointer + 255) % 256) % 65536) :
    (s.stack_push_u16 v).mem_read x = s.mem_read x := by
  show ((s.stack_push ((v >>> 8) % 256)).stack_push (v &&& 0x00FF)).mem_read x
    = s.mem_read x
  rw [CPU.stack_push_mem_read_ne _ _ _
    (by simp only [CPU.stack_push_sp]; exact hx2)]
  exact CPU.stack_push_mem_read_ne _ _ _ hx1

/-- The JSR arm in terms of the 16-bit push. -/
theorem CPU.jsrArm_pc (s : CPU) :
    s.jsrArm.program_counter =
      (s.stack_push_u16 ((s.program_counter + 2 - 1) % 65536)).mem_read_u16
        s.program_counter := by
  simp only [CPU.jsrArm, CPU.stack_push_u16_pc]

theorem CPU.jsrArm_sp (s : CPU) :
    s.jsrArm.stack_pointer = (s.stack_pointer + 254) % 256 := by
  simp only [CPU.jsrArm]
  rw [CPU.stack_push_u16_sp]

theorem CPU.jsrArm_mem_read (s : CPU) (x : Nat) :
    s.jsrArm.mem_read x =
      (s.stack_push_u16 ((s.program_counter + 2 - 1) % 65536)).mem_read x := by
  simp only [CPU.jsrArm, CPU.mem_read]

/-- The RTS arm: pops low then high byte, recombines, adds one. -/
theorem CPU.rtsArm_pc (s : CPU) :
    s.rtsArm.program_counter =
      ((s.mem_read (0x100 + ((s.stack_pointer + 1) % 256 + 1) % 256) <<< 8 |||
        s.mem_read (0x100 + (s.stack_pointer + 1) % 256)) + 1) % 65536 := rfl

theorem CPU.rtsArm_sp (s : CPU) :
    s.rtsArm.stack_pointer = ((s.stack_pointer + 1) % 256 + 1) % 256 := rfl

theorem CPU.rtsArm_mem_read (s : CPU) (x : Nat) :
    s.rtsArm.mem_read x = s.mem_read x := rfl

end Nes

namespace Nes

/-! ### Claim C5: JSR and RTS -/

/-- C5: JSR pushes `program_counter + operand_length - 1` (for a JSR
fetched at `q`, the post-fetch program counter is `q + 1` and the pushed
value is `q + 2`) as a 16-bit little-endian value onto the stack and then
sets the program counter to its absolute operand; RTS pops a 16-bit value
and sets the program counter to that value plus one; consequently a JSR
at `q` calling a subroutine that immediately executes RTS resumes at
`q + 3`.  The first two parts are stated on the instruction bodies
(`jsrArm`, `rtsArm`); the scenario hypotheses of the third part express
that the subroutine at `t` is genuinely called and immediately executes
RTS: the target is actually reached (`t ≠ q + 1`, otherwise the step-5
advance re-fires), and the two pushed stack bytes clobber neither the
JSR operand bytes at `q + 1`/`q + 2` nor the RTS opcode byte at `t`. -/
theorem jsr_rts_spec :
    (∀ s : CPU, s.stack_pointer < 256 → s.program_counter < 65536 →
      0x100 + s.stack_pointer ≠ s.program_counter →
      0x100 + s.stack_pointer ≠ (s.program_counter + 1) % 65536 →
      0x100 + (s.stack_pointer + 255) % 256 ≠ s.program_counter →
      0x100 + (s.stack_pointer + 255) % 256 ≠ (s.program_counter + 1) % 65536 →
      s.jsrArm.program_counter = s.mem_read_u16 s.program_counter ∧
      s.jsrArm.stack_pointer = (s.stack_pointer + 254) % 256 ∧
      s.jsrArm.mem_read (0x100 + s.stack_pointer) =
        (((s.program_counter + 2 - 1) % 65536) >>> 8) % 256 ∧
      s.jsrArm.mem_read (0x100 + (s.stack_pointer + 255) % 256) =
        ((s.program_counter + 2 - 1) % 65536) &&& 255) ∧
    (∀ s : CPU,
      s.rtsArm.program_counter =
        ((s.mem_read (0x100 + ((s.stack_pointer + 1) % 256 + 1) % 256) <<< 8 |||
          s.mem_read (0x100 + (s.stack_pointer + 1) % 256)) + 1) % 65536 ∧
      s.rtsArm.stack_pointer = ((s.stack_pointer + 1) % 256 + 1) % 256) ∧
    (∀ (s : CPU) (q t : Nat),
      s.program_counter = q → q + 3 ≤ 0xFFFF → s.stack_pointer < 256 →
      s.mem_read q = 0x20 →
      256 * s.mem_read (q + 2) + s.mem_read (q + 1) = t →
      s.mem_read t = 0x60 →
      t ≠ q + 1 →
      0x100 + s.stack_pointer ≠ q + 1 →
      0x100 + s.stack_pointer ≠ q + 2 →
      0x100 + s.stack_pointer ≠ t →
      0x100 + (s.stack_pointer + 255) % 256 ≠ q + 1 →
      0x100 + (s.stack_pointer + 255) % 256 ≠ q + 2 →
      0x100 + (s.stack_pointer + 255) % 256 ≠ t →
      ∃ s1 s2, step s = some (StepOut.next s1) ∧
        step s1 = some (StepOut.next s2) ∧
        s2.program_counter = q + 3) := by
  refine ⟨?_, fun s => ⟨CPU.rtsArm_pc s, CPU.rtsArm_sp s⟩, ?_⟩
  · intro s hsp hpc h1 h2 h3 h4
    refine ⟨?_, CPU.jsrArm_sp s, ?_, ?_⟩
    · rw [CPU.jsrArm_pc, CPU.mem_read_u16_eq, CPU.mem_read_u16_eq,
        CPU.stack_push_u16_mem_read_other, CPU.stack_push_u16_mem_read_other]
      all_goals omega
    · rw [CPU.jsrArm_mem_read]
      exact CPU.stack_push_u16_mem_read_hi _ _ hsp
    · rw [CPU.jsrArm_mem_read]
      exact CPU.stack_push_u16_mem_read_lo _ _ hsp
  · intro s q t hq hq3 hsp hfetch ht hrts htq1 hA1q1 hA1q2 hA1t hA2q1 hA2q2 hA2t
    have bq2 := s.mem_read_lt (q + 2)
    have bq1 := s.mem_read_lt (q + 1)
    have hlt : t < 65536 := by omega
    have hq1 : (q + 1) % 65536 = q + 1 := by omega
    have hq2m : (q + 1 + 1) % 65536 = q + 2 := by omega
    have hv : (q + 1 + 2 - 1) % 65536 = q + 2 := by omega
    have hpcA : ({ s with program_counter := q + 1 } : CPU).program_counter = q + 1 := rfl
    have hspA : ({ s with program_counter := q + 1 } : CPU).stack_pointer = s.stack_pointer := rfl
    have hmemA : ∀ x : Nat, ({ s with program_counter := q + 1 } : CPU).mem_read x = s.mem_read x := fun _ => rfl
    have hstep1 : step s = dispatchStep 0x20 ({ s with program_counter := q + 1 } : CPU) := by
      simp only [step, hq, hfetch, hq1]
    have hr2 : (({ s with program_counter := q + 1 } : CPU).stack_push_u16 ((q + 1 + 2 - 1) % 65536)).mem_read (q + 2) =
        s.mem_read (q + 2) := by
      rw [CPU.stack_push_u16_mem_read_other]
      · exact hmemA _
      · rw [hspA]; omega
      · rw [hspA]; omega
    have hr1 : (({ s with program_counter := q + 1 } : CPU).stack_push_u16 ((q + 1 + 2 - 1) % 65536)).mem_read (q + 1) =
        s.mem_read (q + 1) := by
      rw [CPU.stack_push_u16_mem_read_other]
      · exact hmemA _
      · rw [hspA]; omega
      · rw [hspA]; omega
    have hpcJ : ({ s with program_counter := q + 1 } : CPU).jsrArm.program_counter = t := by
      rw [CPU.jsrArm_pc, hpcA, CPU.mem_read_u16_eq, hq2m, hr2, hr1]
      exact ht
    have hspJ : ({ s with program_counter := q + 1 } : CPU).jsrArm.stack_pointer = (s.stack_pointer + 254) % 256 := by
      rw [CPU.jsrArm_sp, hspA]
    have hmemJ : ∀ x : Nat, x < 65536 → x ≠ 0x100 + s.stack_pointer →
        x ≠ 0x100 + (s.stack_pointer + 255) % 256 →
        ({ s with program_counter := q + 1 } : CPU).jsrArm.mem_read x = s.mem_read x := by
      intro x hx hxa hxb
      rw [CPU.jsrArm_mem_read]
      rw [CPU.stack_push_u16_mem_read_other]
      · exact hmemA _
      · rw [hspA]; omega
      · rw [hspA]; omega
    have hhiJ : ({ s with program_counter := q + 1 } : CPU).jsrArm.mem_read (0x100 + s.stack_pointer) = ((q + 2) >>> 8) % 256 := by
      rw [CPU.jsrArm_mem_read, hpcA, hv, ← hspA]
      exact CPU.stack_push_u16_mem_read_hi _ _ (by rw [hspA]; exact hsp)
    have hloJ : ({ s with program_counter := q + 1 } : CPU).jsrArm.mem_read (0x100 + (s.stack_pointer + 255) % 256) =
        (q + 2) &&& 255 := by
      rw [CPU.jsrArm_mem_read, hpcA, hv, ← hspA]
      exact CPU.stack_push_u16_mem_read_lo _ _ (by rw [hspA]; exact hsp)
    have hdisp1 : dispatchStep 0x20 ({ s with program_counter := q + 1 } : CPU) = some (StepOut.next ({ s with program_counter := q + 1 } : CPU).jsrArm) := by
      have hop : OPCODES_MAP 0x20 =
          some ⟨0x20, "JSR", 3, 6, AddressingMode.NoneAddressing⟩ := rfl
      have hexec : execInstr 0x20 AddressingMode.NoneAddressing ({ s with program_counter := q + 1 } : CPU) =
          some (ExecOut.ran ({ s with program_counter := q + 1 } : CPU).jsrArm) := rfl
      simp only [dispatchStep, hop, hexec]
      rw [hpcJ]
      rw [if_neg (fun h => htq1 h.symm)]
    have hfetch2 : ({ s with program_counter := q + 1 } : CPU).jsrArm.mem_read t = 0x60 := by
      rw [hmemJ t hlt (fun h => hA1t h.symm) (fun h => hA2t h.symm)]
      exact hrts
    have hspB : ({ ({ s with program_counter := q + 1 } : CPU).jsrArm with program_counter := (t + 1) % 65536 } : CPU).stack_pointer = (s.stack_pointer + 254) % 256 := by
      have h : ({ ({ s with program_counter := q + 1 } : CPU).jsrArm with program_counter := (t + 1) % 65536 } : CPU).stack_pointer = ({ s with program_counter := q + 1 } : CPU).jsrArm.stack_pointer := rfl
      rw [h, hspJ]
    have hmemB : ∀ x : Nat, ({ ({ s with program_counter := q + 1 } : CPU).jsrArm with program_counter := (t + 1) % 65536 } : CPU).mem_read x = ({ s with program_counter := q + 1 } : CPU).jsrArm.mem_read x := fun _ => rfl
    have hstep2 : step ({ s with program_counter := q + 1 } : CPU).jsrArm = dispatchStep 0x60 ({ ({ s with program_counter := q + 1 } : CPU).jsrArm with program_counter := (t + 1) % 65536 } : CPU) := by
      simp only [step, hpcJ, hfetch2]
    have hpcR : ({ ({ s with program_counter := q + 1 } : CPU).jsrArm with program_counter := (t + 1) % 65536 } : CPU).rtsArm.program_counter = q + 3 := by
      rw [CPU.rtsArm_pc]
      rw [show ((({ ({ s with program_counter := q + 1 } : CPU).jsrArm with program_counter := (t + 1) % 65536 } : CPU).stack_pointer + 1) % 256 + 1) % 256 = s.stack_pointer from by
        rw [hspB]; omega]
      rw [show (({ ({ s with program_counter := q + 1 } : CPU).jsrArm with program_counter := (t + 1) % 65536 } : CPU).stack_pointer + 1) % 256 = (s.stack_pointer + 255) % 256 from by
        rw [hspB]; omega]
      rw [hmemB, hmemB, hhiJ, hloJ]
      rw [u16_bytes_roundtrip (q + 2) (by omega)]
      omega
    have hdisp2 : ∃ s2, dispatchStep 0x60 ({ ({ s with program_counter := q + 1 } : CPU).jsrArm with program_counter := (t + 1) % 65536 } : CPU) = some (StepOut.next s2) ∧
        s2.program_counter = q + 3 := by
      have hop : OPCODES_MAP 0x60 =
          some ⟨0x60, "RTS", 1, 6, AddressingMode.NoneAddressing⟩ := rfl
      have hexec : execInstr 0x60 AddressingMode.NoneAddressing ({ ({ s with program_counter := q + 1 } : CPU).jsrArm with program_counter := (t + 1) % 65536 } : CPU) =
          some (ExecOut.ran ({ ({ s with program_counter := q + 1 } : CPU).jsrArm with program_counter := (t + 1) % 65536 } : CPU).rtsArm) := rfl
      simp only [dispatchStep, hop, hexec]
      by_cases hc : (t + 1) % 65536 = ({ ({ s with program_counter := q + 1 } : CPU).jsrArm with program_counter := (t + 1) % 65536 } : CPU).rtsArm.program_counter
      · rw [if_pos hc]
        refine ⟨_, rfl, ?_⟩
        dsimp only
        rw [hpcR]
        omega
      · rw [if_neg hc]
        exact ⟨_, rfl, hpcR⟩
    obtain ⟨s2, hd2, hpc2⟩ := hdisp2
    exact ⟨({ s with program_counter := q + 1 } : CPU).jsrArm, s2, hstep1.trans hdisp1, hstep2.trans hd2, hpc2⟩

end Nes

namespace Nes

/-- Concrete state for the C5 witness scenario: `JSR $0010` at address 0,
an RTS opcode at 0x0010, stack pointer 0xFD. -/
def cpuC5 : CPU :=
  ⟨0, 0, 0, 0b100100, 0, 0xFD,
   fun a => if a = 0 then 0x20 else if a = 1 then 0x10 else
     if a = 0x10 then 0x60 else 0⟩

/-- The same state with the program counter already past the JSR opcode
byte, for exercising the JSR body directly. -/
def cpuC5a : CPU :=
  ⟨0, 0, 0, 0b100100, 1, 0xFD,
   fun a => if a = 0 then 0x20 else if a = 1 then 0x10 else
     if a = 0x10 then 0x60 else 0⟩

/-- C5 witness: the JSR body pushes 0x0002 little-endian (0 at 0x01FD,
2 at 0x01FC) and jumps to 0x0010; the RTS body pops and adds one; the
complete two-step scenario from address 0 resumes at 3 = 0 + 3. -/
theorem jsr_rts_spec_witness :
    (cpuC5a.jsrArm.program_counter = 0x10 ∧
     cpuC5a.jsrArm.stack_pointer = 0xFB ∧
     cpuC5a.jsrArm.mem_read 0x1FD = 0 ∧
     cpuC5a.jsrArm.mem_read 0x1FC = 2) ∧
    (cpuC5.rtsArm.program_counter = 1 ∧ cpuC5.rtsArm.stack_pointer = 0xFF) ∧
    (∃ s1 s2, step cpuC5 = some (StepOut.next s1) ∧
      step s1 = some (StepOut.next s2) ∧ s2.program_counter = 3) :=
  ⟨jsr_rts_spec.1 cpuC5a (by decide) (by decide) (by decide) (by decide)
      (by decide) (by decide),
   jsr_rts_spec.2.1 cpuC5,
   jsr_rts_spec.2.2 cpuC5 0 0x10 rfl (by decide) (by decide) (by decide)
      (by decide) (by decide) (by decide) (by decide) (by decide) (by decide)
      (by decide) (by decide) (by decide)⟩

end Nes
